import Mathlib

/-!
# simple-bank: the transactional core `db/sqlc/store.go`

A shallow embedding of `execTx` and `TransferTx` with explicit state passing.
The database handle, the transaction and the generated `Queries` methods are
not part of `store.go`; they appear here as a record of state transformers
(`Store σ`), so that the two functions can be run against any behaviour of
the store, and against one concrete transactional store (`World`).
-/

namespace SimpleBank

/-! ## int64 arithmetic -/

/-- The value of a mathematical integer after wrapping into the int64 range. -/
def wrap64 (x : Int) : Int := (x + 2 ^ 63) % 2 ^ 64 - 2 ^ 63

/-- Membership in the int64 range. -/
def isInt64 (x : Int) : Prop := -(2 ^ 63) ≤ x ∧ x < 2 ^ 63

instance (x : Int) : Decidable (isInt64 x) := by
  unfold isInt64; exact inferInstance

/-- Go's unary minus on an int64 (`-arg.Amount`): it wraps at the minimum value. -/
def neg64 (x : Int) : Int := wrap64 (-x)

/-! ## Go errors -/

/-- A non-nil Go `error` value.  `store code msg` is an error value produced by
the database layer whose dynamic type has no `Format` method (its `code` stands
for the identity of the dynamic value, its `msg` for what `Error()` prints);
`formatter code msg text` is such a value whose dynamic type implements
`fmt.Formatter`: `Error()` prints `msg`, and its `Format` method writes `text`
for the verb `%v`; `errorString msg` is the value built by `fmt.Errorf` when the
format has no wrapping verb: it holds the text only. -/
inductive GoError where
  | store (code : Nat) (msg : String)
  | formatter (code : Nat) (msg : String) (text : String)
  | errorString (msg : String)
deriving DecidableEq

/-- The `Error()` method. -/
def GoError.Error : GoError → String
  | .store _ msg => msg
  | .formatter _ msg _ => msg
  | .errorString msg => msg

/-- Whether the dynamic type of the error implements `fmt.Formatter`. -/
def GoError.hasFormat : GoError → Bool
  | .formatter _ _ _ => true
  | _ => false

/-- What the verb `%v` of package `fmt` prints for an error operand: the output
of its `Format` method when it implements `fmt.Formatter`, which is consulted
first, and else its `Error()` text. -/
def GoError.verbV : GoError → String
  | .store _ msg => msg
  | .formatter _ _ text => text
  | .errorString msg => msg

/-- A value of the interface type `error`: `none` is `nil`. -/
abbrev Error := Option GoError

/-- The call `fmt.Errorf("tx err: %v, rb err: %v", err, rbErr)` of `execTx`:
both operands are printed with `%v`, and the result holds the text only. -/
def Errorf (err rbErr : GoError) : GoError :=
  .errorString ("tx err: " ++ err.verbV ++ ", rb err: " ++ rbErr.verbV)

/-- How a Go call whose only result is an `error` ends: it returns that error
(possibly nil), or it does not return because it panicked. -/
inductive Outcome where
  | returned (err : Error)
  | panicked
deriving DecidableEq

/-! ## Rows -/

/-- Modelled from the spec: the `Account` row type (its declaration is generated
code outside `store.go`); fields as listed in the data model. -/
structure Account where
  ID : Int
  Owner : String
  Balance : Int
  Currency : String
  CreatedAt : Int
deriving DecidableEq

/-- Modelled from the spec: the `Entry` row type (declared outside `store.go`). -/
structure Entry where
  ID : Int
  AccountID : Int
  Amount : Int
  CreatedAt : Int
deriving DecidableEq

/-- Modelled from the spec: the `Transfer` row type (declared outside `store.go`). -/
structure Transfer where
  ID : Int
  FromAccountID : Int
  ToAccountID : Int
  Amount : Int
  CreatedAt : Int
deriving DecidableEq

/-- Go's zero value of `Account`. -/
def Account.zero : Account := ⟨0, "", 0, "", 0⟩

/-- Go's zero value of `Entry`. -/
def Entry.zero : Entry := ⟨0, 0, 0, 0⟩

/-- Go's zero value of `Transfer`. -/
def Transfer.zero : Transfer := ⟨0, 0, 0, 0, 0⟩

/-- The argument of `q.CreateTransfer`, with the three fields `TransferTx` sets. -/
structure CreateTransferParams where
  FromAccountID : Int
  ToAccountID : Int
  Amount : Int
deriving DecidableEq

/-- The argument of `q.CreateEntry`, with the two fields `TransferTx` sets. -/
structure CreateEntryParams where
  AccountID : Int
  Amount : Int
deriving DecidableEq

/-- The input parameters of the transfer transaction. -/
structure TransferTxParams where
  FromAccountID : Int
  ToAccountID : Int
  Amount : Int
deriving DecidableEq

/-- The result of the transfer transaction. -/
structure TransferTxResult where
  Transfer : SimpleBank.Transfer
  FromAccount : SimpleBank.Account
  ToAccount : SimpleBank.Account
  FromEntry : SimpleBank.Entry
  ToEntry : SimpleBank.Entry
deriving DecidableEq

/-- The value of `var result TransferTxResult`. -/
def TransferTxResult.zero : TransferTxResult :=
  ⟨Transfer.zero, Account.zero, Account.zero, Entry.zero, Entry.zero⟩

/-! ## The store, as seen from `store.go` -/

/-- The transaction-scoped `*Queries` handle `New(tx)`: the two methods that
`TransferTx` calls, as transformers of the store state `σ` returning the row
and the error of the Go method. -/
structure Queries (σ : Type) where
  CreateTransfer : CreateTransferParams → σ → σ × Transfer × Error
  CreateEntry : CreateEntryParams → σ → σ × Entry × Error

/-- The behaviour of a `*Store`: `store.db.BeginTx`, the handle `New(tx)`,
`tx.Rollback` and `tx.Commit`.  Nothing is assumed of these functions. -/
structure Store (σ : Type) where
  BeginTx : σ → σ × Error
  New : Queries σ
  Rollback : σ → σ × Error
  Commit : σ → σ × Error

/-- The method `execTx`.  The unit of work `fn` receives the handle `q`, the
variables it captures (`ρ`) and the store state, and returns the new state, the
new value of the captured variables and how it ended. -/
def execTx {σ ρ : Type} (store : Store σ)
    (fn : Queries σ → ρ → σ → σ × ρ × Outcome) (captured : ρ) (s : σ) :
    σ × ρ × Outcome :=
  match store.BeginTx s with
  | (s1, some err) => (s1, captured, .returned (some err))
  | (s1, none) =>
    match fn store.New captured s1 with
    | (s2, c2, .panicked) => (s2, c2, .panicked)
    | (s2, c2, .returned (some err)) =>
      match store.Rollback s2 with
      | (s3, some rbErr) => (s3, c2, .returned (some (Errorf err rbErr)))
      | (s3, none) => (s3, c2, .returned (some err))
    | (s2, c2, .returned none) =>
      match store.Commit s2 with
      | (s3, err) => (s3, c2, .returned err)

/-- The closure that `TransferTx` hands to `execTx`; `result` is the variable
it captures and assigns to. -/
def transferFn {σ : Type} (arg : TransferTxParams) (q : Queries σ)
    (result : TransferTxResult) (s : σ) : σ × TransferTxResult × Outcome :=
  match q.CreateTransfer
      { FromAccountID := arg.FromAccountID, ToAccountID := arg.ToAccountID,
        Amount := arg.Amount } s with
  | (s1, transfer, err1) =>
    let result1 := { result with Transfer := transfer }
    match err1 with
    | some e => (s1, result1, .returned (some e))
    | none =>
      match q.CreateEntry
          { AccountID := arg.FromAccountID, Amount := neg64 arg.Amount } s1 with
      | (s2, fromEntry, err2) =>
        let result2 := { result1 with FromEntry := fromEntry }
        match err2 with
        | some e => (s2, result2, .returned (some e))
        | none =>
          match q.CreateEntry
              { AccountID := arg.ToAccountID, Amount := arg.Amount } s2 with
          | (s3, toEntry, err3) =>
            let result3 := { result2 with ToEntry := toEntry }
            match err3 with
            | some e => (s3, result3, .returned (some e))
            | none => (s3, result3, .returned none)

/-- The method `TransferTx`: the final state of the store, the returned
`result` and the returned `err`. -/
def TransferTx {σ : Type} (store : Store σ) (arg : TransferTxParams) (s : σ) :
    σ × TransferTxResult × Outcome :=
  execTx store (transferFn arg) TransferTxResult.zero s

/-! ## Recording the calls made on the store -/

/-- A call on the database handle, on the transaction, or on the handle `New(tx)`. -/
inductive Call where
  | BeginTx
  | CreateTransfer (arg : CreateTransferParams)
  | CreateEntry (arg : CreateEntryParams)
  | Rollback
  | Commit
deriving DecidableEq

/-- One recorded call with the error it returned. -/
structure Event where
  call : Call
  err : Error
deriving DecidableEq

/-- The store `store` with a journal: every call that reaches the store is
appended, with its error, to the list carried next to the state. -/
def traced {σ : Type} (store : Store σ) : Store (σ × List Event) where
  BeginTx := fun st =>
    match store.BeginTx st.1 with
    | (s, err) => ((s, st.2 ++ [⟨Call.BeginTx, err⟩]), err)
  New :=
    { CreateTransfer := fun arg st =>
        match store.New.CreateTransfer arg st.1 with
        | (s, row, err) => ((s, st.2 ++ [⟨Call.CreateTransfer arg, err⟩]), row, err)
      CreateEntry := fun arg st =>
        match store.New.CreateEntry arg st.1 with
        | (s, row, err) => ((s, st.2 ++ [⟨Call.CreateEntry arg, err⟩]), row, err) }
  Rollback := fun st =>
    match store.Rollback st.1 with
    | (s, err) => ((s, st.2 ++ [⟨Call.Rollback, err⟩]), err)
  Commit := fun st =>
    match store.Commit st.1 with
    | (s, err) => ((s, st.2 ++ [⟨Call.Commit, err⟩]), err)

/-- Whether a call is a write through the transaction-scoped handle. -/
def Call.isWrite : Call → Bool
  | .CreateTransfer _ => true
  | .CreateEntry _ => true
  | _ => false

/-- The writes of a journal, in order. -/
def writes (log : List Event) : List Event := log.filter fun ev => ev.call.isWrite

/-- How many times `call` occurs in a journal. -/
def countCall (call : Call) (log : List Event) : Nat :=
  (log.filter fun ev => decide (ev.call = call)).length

/-- How many transactions a journal opens: the successful `BeginTx` calls. -/
def opened (log : List Event) : Nat :=
  (log.filter fun ev => decide (ev.call = Call.BeginTx ∧ ev.err = none)).length

/-- The three writes of a transfer, in the order of the source. -/
def transferWrites (arg : TransferTxParams) : List Call :=
  [ Call.CreateTransfer
      { FromAccountID := arg.FromAccountID, ToAccountID := arg.ToAccountID,
        Amount := arg.Amount },
    Call.CreateEntry { AccountID := arg.FromAccountID, Amount := neg64 arg.Amount },
    Call.CreateEntry { AccountID := arg.ToAccountID, Amount := arg.Amount } ]

/-! ## A transactional store -/

/-- The tables of the database. -/
structure DB where
  accounts : List Account
  transfers : List Transfer
  entries : List Entry
deriving DecidableEq

/-- Modelled from the spec: the state of the external store (the database
behind `store.db`, which `store.go` only calls).  `committed` is what is
durably present; `tx` is the working copy of the open transaction, if any;
`transferSeq` and `entrySeq` are the identity sequences; `now` is the clock
that stamps new rows; `faults` schedules the failures: the n-th call on the
store fails with the n-th element when that element is an error, and an
exhausted schedule means no more failures. -/
structure World where
  committed : DB
  tx : Option DB
  transferSeq : Int
  entrySeq : Int
  now : Int
  faults : List Error
deriving DecidableEq

/-- The failure scheduled for the next call. -/
def World.fault (w : World) : Error := w.faults.head?.join

/-- The world after one call has consumed its slot of the schedule. -/
def World.advance (w : World) : World := { w with faults := w.faults.tail }

/-- The error of a call on a transaction that is not open. -/
def errTxDone : GoError :=
  .store 1 "sql: transaction has already been committed or rolled back"

/-- Modelled from the spec: begin-transaction.  It fails as scheduled, else
opens a transaction whose working copy starts as the committed state. -/
def World.BeginTx (w : World) : World × Error :=
  match w.fault with
  | some e => (w.advance, some e)
  | none => ({ w.advance with tx := some w.committed }, none)

/-- Modelled from the spec: create-transfer, a single-statement insert inside
the open transaction.  On failure nothing is written and the zero row comes
back with the error; on success the new row is appended to the working copy
and returned. -/
def World.CreateTransfer (arg : CreateTransferParams) (w : World) :
    World × Transfer × Error :=
  match w.fault with
  | some e => (w.advance, Transfer.zero, some e)
  | none =>
    match w.tx with
    | none => (w.advance, Transfer.zero, some errTxDone)
    | some db =>
      let row : Transfer :=
        ⟨w.transferSeq, arg.FromAccountID, arg.ToAccountID, arg.Amount, w.now⟩
      ({ w.advance with
          tx := some { db with transfers := db.transfers ++ [row] }
          transferSeq := w.transferSeq + 1 }, row, none)

/-- Modelled from the spec: create-entry, a single-statement insert inside the
open transaction, like `World.CreateTransfer`. -/
def World.CreateEntry (arg : CreateEntryParams) (w : World) :
    World × Entry × Error :=
  match w.fault with
  | some e => (w.advance, Entry.zero, some e)
  | none =>
    match w.tx with
    | none => (w.advance, Entry.zero, some errTxDone)
    | some db =>
      let row : Entry := ⟨w.entrySeq, arg.AccountID, arg.Amount, w.now⟩
      ({ w.advance with
          tx := some { db with entries := db.entries ++ [row] }
          entrySeq := w.entrySeq + 1 }, row, none)

/-- Modelled from the spec: rollback.  The working copy is discarded whether
or not the call reports an error; the committed state is untouched. -/
def World.Rollback (w : World) : World × Error :=
  match w.fault with
  | some e => ({ w.advance with tx := none }, some e)
  | none =>
    match w.tx with
    | none => (w.advance, some errTxDone)
    | some _ => ({ w.advance with tx := none }, none)

/-- Modelled from the spec: commit.  A failed commit counts as not applied;
a successful one makes the working copy the committed state. -/
def World.Commit (w : World) : World × Error :=
  match w.fault with
  | some e => ({ w.advance with tx := none }, some e)
  | none =>
    match w.tx with
    | none => (w.advance, some errTxDone)
    | some db => ({ w.advance with committed := db, tx := none }, none)

/-- The transactional store as a `Store`. -/
def worldStore : Store World where
  BeginTx := World.BeginTx
  New := { CreateTransfer := World.CreateTransfer, CreateEntry := World.CreateEntry }
  Rollback := World.Rollback
  Commit := World.Commit

/-- A world with accounts 1 and 2, no transfers, no entries, and the given
schedule of failures. -/
def world12 (faults : List Error) : World :=
  { committed :=
      { accounts := [⟨1, "alice", 500, "USD", 0⟩, ⟨2, "bob", 500, "USD", 0⟩]
        transfers := []
        entries := [] }
    tx := none
    transferSeq := 1
    entrySeq := 1
    now := 7
    faults := faults }

/-! ## Predicates used by the statements -/

/-- The handle returns the row it was asked to create: whenever a create call
reports no error, the returned row carries the fields of its argument. -/
def Faithful {σ : Type} (q : Queries σ) : Prop :=
  (∀ (arg : CreateTransferParams) (s : σ), (q.CreateTransfer arg s).2.2 = none →
    (q.CreateTransfer arg s).2.1.FromAccountID = arg.FromAccountID ∧
    (q.CreateTransfer arg s).2.1.ToAccountID = arg.ToAccountID ∧
    (q.CreateTransfer arg s).2.1.Amount = arg.Amount) ∧
  (∀ (arg : CreateEntryParams) (s : σ), (q.CreateEntry arg s).2.2 = none →
    (q.CreateEntry arg s).2.1.AccountID = arg.AccountID ∧
    (q.CreateEntry arg s).2.1.Amount = arg.Amount)

/-- The unit of work `fn`, run on a journalled store through the handle `q`,
only adds writes to the journal: it holds `q` and neither the database handle
nor the transaction, so it cannot begin, commit or roll back. -/
def QueriesOnly {σ ρ : Type}
    (fn : Queries (σ × List Event) → ρ → σ × List Event → (σ × List Event) × ρ × Outcome)
    (q : Queries (σ × List Event)) : Prop :=
  ∀ (c : ρ) (st : σ × List Event),
    ∃ ws : List Event, (fn q c st).1.2 = st.2 ++ ws ∧ ∀ ev ∈ ws, ev.call.isWrite = true

/-- The journal of one call of `execTx` on `store`, started empty. -/
def execJournal {σ ρ : Type} (store : Store σ)
    (fn : Queries (σ × List Event) → ρ → σ × List Event → (σ × List Event) × ρ × Outcome)
    (captured : ρ) (s : σ) : List Event :=
  (execTx (traced store) fn captured (s, [])).1.2

/-- The journal of one call of `TransferTx` on `store`, started empty. -/
def journal {σ : Type} (store : Store σ) (arg : TransferTxParams) (s : σ) : List Event :=
  (TransferTx (traced store) arg (s, [])).1.2

/-- A unit of work that issues nothing and panics. -/
def panicFn {σ ρ : Type} (_q : Queries σ) (captured : ρ) (s : σ) : σ × ρ × Outcome :=
  (s, captured, .panicked)

/-- The text `part` occurs in `text` as a contiguous run of characters. -/
def textContains (text part : String) : Prop := part.data <:+: text.data

/-- The second of two successive calls of `TransferTx` with the same argument
on the transactional store: the call made in the state the first one left. -/
def secondCall (arg : TransferTxParams) (w : World) : World × TransferTxResult × Outcome :=
  TransferTx worldStore arg (TransferTx worldStore arg w).1

/-- What the store answers to the first write of a transfer, create-transfer,
in the state that begin-transaction left: new state, row and error. -/
def answer1 {σ : Type} (store : Store σ) (arg : TransferTxParams) (s : σ) :
    σ × Transfer × Error :=
  store.New.CreateTransfer
    { FromAccountID := arg.FromAccountID, ToAccountID := arg.ToAccountID,
      Amount := arg.Amount } (store.BeginTx s).1

/-- What the store answers to the second write of a transfer, the debit entry,
in the state that the first write left. -/
def answer2 {σ : Type} (store : Store σ) (arg : TransferTxParams) (s : σ) :
    σ × Entry × Error :=
  store.New.CreateEntry
    { AccountID := arg.FromAccountID, Amount := neg64 arg.Amount } (answer1 store arg s).1

/-- What the store answers to the third write of a transfer, the credit entry,
in the state that the second write left. -/
def answer3 {σ : Type} (store : Store σ) (arg : TransferTxParams) (s : σ) :
    σ × Entry × Error :=
  store.New.CreateEntry
    { AccountID := arg.ToAccountID, Amount := arg.Amount } (answer2 store arg s).1

/-! ## Shared lemmas -/

theorem neg64_neg64 (a : Int) (h : isInt64 a) : neg64 (neg64 a) = a := by
  unfold isInt64 at h
  unfold neg64 wrap64
  omega

theorem neg64_eq_neg (a : Int) (h : isInt64 a) (hmin : a ≠ -(2 ^ 63)) : neg64 a = -a := by
  unfold isInt64 at h
  unfold neg64 wrap64
  omega

theorem neg64_isInt64 (a : Int) : isInt64 (neg64 a) := by
  unfold isInt64 neg64 wrap64
  omega

/-- A run of the closure that returns nil made its three writes, all without
error, and assigned their rows. -/
theorem transferFn_ok_inv {σ : Type} (arg : TransferTxParams) (q : Queries σ)
    (result : TransferTxResult) (s s' : σ) (r' : TransferTxResult)
    (h : transferFn arg q result s = (s', r', .returned none)) :
    ∃ s1 s2 t e1 e2,
      q.CreateTransfer ⟨arg.FromAccountID, arg.ToAccountID, arg.Amount⟩ s = (s1, t, none) ∧
      q.CreateEntry ⟨arg.FromAccountID, neg64 arg.Amount⟩ s1 = (s2, e1, none) ∧
      q.CreateEntry ⟨arg.ToAccountID, arg.Amount⟩ s2 = (s', e2, none) ∧
      r' = { result with Transfer := t, FromEntry := e1, ToEntry := e2 } := by
  unfold transferFn at h
  rcases h1 : q.CreateTransfer ⟨arg.FromAccountID, arg.ToAccountID, arg.Amount⟩ s
    with ⟨s1, t, _ | e⟩
  · rw [h1] at h
    rcases h2 : q.CreateEntry ⟨arg.FromAccountID, neg64 arg.Amount⟩ s1 with ⟨s2, e1, _ | e⟩
    · simp only [h2] at h
      rcases h3 : q.CreateEntry ⟨arg.ToAccountID, arg.Amount⟩ s2 with ⟨s3, e2, _ | e⟩
      · simp only [h3, Prod.mk.injEq] at h
        obtain ⟨rfl, rfl, -⟩ := h
        exact ⟨s1, s2, t, e1, e2, rfl, h2, h3, rfl⟩
      · simp [h3] at h
    · simp [h2] at h
  · simp [h1] at h

/-- The closure never panics. -/
theorem transferFn_returns {σ : Type} (arg : TransferTxParams) (q : Queries σ)
    (result : TransferTxResult) (s : σ) :
    (transferFn arg q result s).2.2 ≠ .panicked := by
  intro h
  unfold transferFn at h
  rcases h1 : q.CreateTransfer ⟨arg.FromAccountID, arg.ToAccountID, arg.Amount⟩ s
    with ⟨s1, t, _ | e⟩
  · rw [h1] at h
    rcases h2 : q.CreateEntry ⟨arg.FromAccountID, neg64 arg.Amount⟩ s1 with ⟨s2, e1, _ | e⟩
    · simp only [h2] at h
      rcases h3 : q.CreateEntry ⟨arg.ToAccountID, arg.Amount⟩ s2 with ⟨s3, e2, _ | e⟩ <;>
        simp [h3] at h
    · simp [h2] at h
  · simp [h1] at h

/-- A call of `execTx` that returns nil began, ran its unit of work to a nil
return, and committed, all without error. -/
theorem execTx_ok_inv {σ ρ : Type} (store : Store σ)
    (fn : Queries σ → ρ → σ → σ × ρ × Outcome) (captured : ρ) (s s' : σ) (c' : ρ)
    (h : execTx store fn captured s = (s', c', .returned none)) :
    ∃ s1 s2,
      store.BeginTx s = (s1, none) ∧ fn store.New captured s1 = (s2, c', .returned none) ∧
      store.Commit s2 = (s', none) := by
  unfold execTx at h
  rcases hb : store.BeginTx s with ⟨s1, _ | e⟩
  · simp only [hb] at h
    rcases hf : fn store.New captured s1 with ⟨s2, c2, (_ | e) | _⟩
    · simp only [hf] at h
      rcases hc : store.Commit s2 with ⟨s3, _ | e⟩
      · simp only [hc, Prod.mk.injEq] at h
        obtain ⟨rfl, rfl, -⟩ := h
        exact ⟨s1, s2, rfl, hf, hc⟩
      · simp [hc] at h
    · simp only [hf] at h
      rcases hr : store.Rollback s2 with ⟨s3, _ | e'⟩ <;> simp [hr] at h
    · simp [hf] at h
  · simp [hb] at h

/-- A call of `TransferTx` that returns nil: the five calls on the store all
succeeded and the result holds the three rows they returned. -/
theorem TransferTx_ok_inv {σ : Type} (store : Store σ) (arg : TransferTxParams) (s : σ)
    (h : (TransferTx store arg s).2.2 = .returned none) :
    ∃ s1 s2 s3 s4 s5 t e1 e2,
      store.BeginTx s = (s1, none) ∧
      store.New.CreateTransfer ⟨arg.FromAccountID, arg.ToAccountID, arg.Amount⟩ s1
        = (s2, t, none) ∧
      store.New.CreateEntry ⟨arg.FromAccountID, neg64 arg.Amount⟩ s2 = (s3, e1, none) ∧
      store.New.CreateEntry ⟨arg.ToAccountID, arg.Amount⟩ s3 = (s4, e2, none) ∧
      store.Commit s4 = (s5, none) ∧
      TransferTx store arg s =
        (s5, { TransferTxResult.zero with Transfer := t, FromEntry := e1, ToEntry := e2 },
          .returned none) := by
  rcases hT : TransferTx store arg s with ⟨s5, r, o⟩
  rw [hT] at h
  simp only at h
  subst h
  obtain ⟨s1, s4, hb, hf, hc⟩ := execTx_ok_inv store (transferFn arg) _ s s5 r hT
  obtain ⟨s2, s3, t, e1, e2, h1, h2, h3, hr⟩ := transferFn_ok_inv arg store.New _ s1 s4 r hf
  exact ⟨s1, s2, s3, s4, s5, t, e1, e2, hb, h1, h2, h3, hc, by rw [hr]⟩

/-- The transactional store returns the rows it is asked to create. -/
theorem worldStore_faithful : Faithful worldStore.New := by
  constructor
  · intro arg w
    simp only [worldStore, World.CreateTransfer]
    rcases w.fault with _ | e
    · rcases w.tx with _ | db <;> simp
    · simp
  · intro arg w
    simp only [worldStore, World.CreateEntry]
    rcases w.fault with _ | e
    · rcases w.tx with _ | db <;> simp
    · simp

/-! ## C1 -/

/-- Claim C1: over a store whose create calls return the row they were asked to
create, a call `TransferTx(ctx, {f, t, a})` that returns nil has
`result.Transfer` with from `f`, to `t` and amount `a`, `result.FromEntry` with
account `f` and amount `-a` in int64 arithmetic (the plain `-a` unless `a` is the
minimum int64), and `result.ToEntry` with account `t` and amount `a`; hence the
transfer amount equals the credit amount and the int64 negation of the debit
amount. -/
theorem C1_transfer_rows_match_arguments {σ : Type} (store : Store σ)
    (hq : Faithful store.New) (arg : TransferTxParams) (ha : isInt64 arg.Amount) (s : σ)
    (hok : (TransferTx store arg s).2.2 = .returned none) :
    (TransferTx store arg s).2.1.Transfer.FromAccountID = arg.FromAccountID ∧
    (TransferTx store arg s).2.1.Transfer.ToAccountID = arg.ToAccountID ∧
    (TransferTx store arg s).2.1.Transfer.Amount = arg.Amount ∧
    (TransferTx store arg s).2.1.FromEntry.AccountID = arg.FromAccountID ∧
    (TransferTx store arg s).2.1.FromEntry.Amount = neg64 arg.Amount ∧
    (arg.Amount ≠ -(2 ^ 63) → (TransferTx store arg s).2.1.FromEntry.Amount = -arg.Amount) ∧
    (TransferTx store arg s).2.1.ToEntry.AccountID = arg.ToAccountID ∧
    (TransferTx store arg s).2.1.ToEntry.Amount = arg.Amount ∧
    (TransferTx store arg s).2.1.Transfer.Amount
      = (TransferTx store arg s).2.1.ToEntry.Amount ∧
    (TransferTx store arg s).2.1.Transfer.Amount
      = neg64 (TransferTx store arg s).2.1.FromEntry.Amount := by
  obtain ⟨s1, s2, s3, s4, s5, t, e1, e2, -, h1, h2, h3, -, hT⟩ :=
    TransferTx_ok_inv store arg s hok
  have ht := hq.1 ⟨arg.FromAccountID, arg.ToAccountID, arg.Amount⟩ s1
  have he1 := hq.2 ⟨arg.FromAccountID, neg64 arg.Amount⟩ s2
  have he2 := hq.2 ⟨arg.ToAccountID, arg.Amount⟩ s3
  rw [h1] at ht
  rw [h2] at he1
  rw [h3] at he2
  obtain ⟨ht1, ht2, ht3⟩ := ht rfl
  obtain ⟨hf1, hf2⟩ := he1 rfl
  obtain ⟨hg1, hg2⟩ := he2 rfl
  simp only at ht1 ht2 ht3 hf1 hf2 hg1 hg2
  rw [hT]
  simp only
  refine ⟨ht1, ht2, ht3, hf1, hf2, ?_, hg1, hg2, ?_, ?_⟩
  · intro hmin
    rw [hf2]
    exact neg64_eq_neg _ ha hmin
  · rw [ht3, hg2]
  · rw [ht3, hf2, neg64_neg64 _ ha]

/-- The scenario of C1: `f = 1`, `t = 2`, `a = 100` on the transactional store
with accounts 1 and 2 gives transfer `{1, 2, 100}`, debit entry `{1, -100}`,
credit entry `{2, 100}` and no error. -/
theorem C1_transfer_rows_match_arguments_witness :
    (TransferTx worldStore ⟨1, 2, 100⟩ (world12 [])).2.2 = .returned none ∧
    (TransferTx worldStore ⟨1, 2, 100⟩ (world12 [])).2.1.Transfer = ⟨1, 1, 2, 100, 7⟩ ∧
    (TransferTx worldStore ⟨1, 2, 100⟩ (world12 [])).2.1.FromEntry = ⟨1, 1, -100, 7⟩ ∧
    (TransferTx worldStore ⟨1, 2, 100⟩ (world12 [])).2.1.ToEntry = ⟨2, 2, 100, 7⟩ ∧
    (TransferTx worldStore ⟨1, 2, 100⟩ (world12 [])).2.1.Transfer.Amount
      = neg64 (TransferTx worldStore ⟨1, 2, 100⟩ (world12 [])).2.1.FromEntry.Amount :=
  ⟨by decide, by decide, by decide, by decide,
    (C1_transfer_rows_match_arguments worldStore worldStore_faithful ⟨1, 2, 100⟩
      (by decide) (world12 []) (by decide)).2.2.2.2.2.2.2.2.2⟩

/-! ## The exit paths of `execTx` -/

theorem execTx_begin_err {σ ρ : Type} (store : Store σ)
    (fn : Queries σ → ρ → σ → σ × ρ × Outcome) (c : ρ) (s s1 : σ) (e : GoError)
    (hb : store.BeginTx s = (s1, some e)) :
    execTx store fn c s = (s1, c, .returned (some e)) := by
  simp only [execTx, hb]

theorem execTx_panic {σ ρ : Type} (store : Store σ)
    (fn : Queries σ → ρ → σ → σ × ρ × Outcome) (c c2 : ρ) (s s1 s2 : σ)
    (hb : store.BeginTx s = (s1, none)) (hf : fn store.New c s1 = (s2, c2, .panicked)) :
    execTx store fn c s = (s2, c2, .panicked) := by
  simp only [execTx, hb, hf]

theorem execTx_rollback_ok {σ ρ : Type} (store : Store σ)
    (fn : Queries σ → ρ → σ → σ × ρ × Outcome) (c c2 : ρ) (s s1 s2 s3 : σ) (e : GoError)
    (hb : store.BeginTx s = (s1, none))
    (hf : fn store.New c s1 = (s2, c2, .returned (some e)))
    (hr : store.Rollback s2 = (s3, none)) :
    execTx store fn c s = (s3, c2, .returned (some e)) := by
  simp only [execTx, hb, hf, hr]

theorem execTx_rollback_err {σ ρ : Type} (store : Store σ)
    (fn : Queries σ → ρ → σ → σ × ρ × Outcome) (c c2 : ρ) (s s1 s2 s3 : σ) (e r : GoError)
    (hb : store.BeginTx s = (s1, none))
    (hf : fn store.New c s1 = (s2, c2, .returned (some e)))
    (hr : store.Rollback s2 = (s3, some r)) :
    execTx store fn c s = (s3, c2, .returned (some (Errorf e r))) := by
  simp only [execTx, hb, hf, hr]

theorem execTx_commit {σ ρ : Type} (store : Store σ)
    (fn : Queries σ → ρ → σ → σ × ρ × Outcome) (c c2 : ρ) (s s1 s2 s3 : σ) (err : Error)
    (hb : store.BeginTx s = (s1, none))
    (hf : fn store.New c s1 = (s2, c2, .returned none))
    (hc : store.Commit s2 = (s3, err)) :
    execTx store fn c s = (s3, c2, .returned err) := by
  simp only [execTx, hb, hf, hc]

/-- The captured variables after `execTx`: untouched when begin fails, else as
the unit of work left them. -/
theorem execTx_captured {σ ρ : Type} (store : Store σ)
    (fn : Queries σ → ρ → σ → σ × ρ × Outcome) (c : ρ) (s : σ) :
    ((store.BeginTx s).2 ≠ none → (execTx store fn c s).2.1 = c) ∧
    ((store.BeginTx s).2 = none →
      (execTx store fn c s).2.1 = (fn store.New c (store.BeginTx s).1).2.1) := by
  rcases hb : store.BeginTx s with ⟨s1, _ | e⟩
  · refine ⟨fun h => absurd rfl h, fun _ => ?_⟩
    rcases hf : fn store.New c s1 with ⟨s2, c2, (_ | e) | _⟩
    · rcases hc : store.Commit s2 with ⟨s3, err⟩
      rw [execTx_commit store fn c c2 s s1 s2 s3 err hb hf hc]
    · rcases hr : store.Rollback s2 with ⟨s3, _ | r⟩
      · rw [execTx_rollback_ok store fn c c2 s s1 s2 s3 e hb hf hr]
      · rw [execTx_rollback_err store fn c c2 s s1 s2 s3 e r hb hf hr]
    · rw [execTx_panic store fn c c2 s s1 s2 hb hf]
  · refine ⟨fun _ => ?_, fun h => by simp at h⟩
    rw [execTx_begin_err store fn c s s1 e hb]

/-- What the closure leaves in `result`: the transfer field is whatever
create-transfer returned, and the account fields are never assigned. -/
theorem transferFn_fields {σ : Type} (arg : TransferTxParams) (q : Queries σ)
    (result : TransferTxResult) (s : σ) :
    (transferFn arg q result s).2.1.Transfer
      = (q.CreateTransfer ⟨arg.FromAccountID, arg.ToAccountID, arg.Amount⟩ s).2.1 ∧
    (transferFn arg q result s).2.1.FromAccount = result.FromAccount ∧
    (transferFn arg q result s).2.1.ToAccount = result.ToAccount := by
  rcases hT : transferFn arg q result s with ⟨s', r', o⟩
  unfold transferFn at hT
  rcases h1 : q.CreateTransfer ⟨arg.FromAccountID, arg.ToAccountID, arg.Amount⟩ s
    with ⟨s1, t, _ | e⟩
  · rw [h1] at hT
    rcases h2 : q.CreateEntry ⟨arg.FromAccountID, neg64 arg.Amount⟩ s1 with ⟨s2, e1, _ | e⟩
    · simp only [h2] at hT
      rcases h3 : q.CreateEntry ⟨arg.ToAccountID, arg.Amount⟩ s2 with ⟨s3, e2, _ | e⟩ <;>
      · simp only [h3, Prod.mk.injEq] at hT
        obtain ⟨-, rfl, -⟩ := hT
        exact ⟨rfl, rfl, rfl⟩
    · simp only [h2, Prod.mk.injEq] at hT
      obtain ⟨-, rfl, -⟩ := hT
      exact ⟨rfl, rfl, rfl⟩
  · simp only [h1, Prod.mk.injEq] at hT
    obtain ⟨-, rfl, -⟩ := hT
    exact ⟨rfl, rfl, rfl⟩

/-! ## C5 -/

/-- Claim C5: `execTx` passes every single-cause failure through unchanged.  If
begin-transaction fails with `e` it returns exactly `e`; if the unit of work
fails with `e` and rollback succeeds it returns exactly `e`; if the unit of work
succeeds and commit fails with `e` it returns exactly `e`; it returns nil only
when begin, the unit of work and commit all succeeded; and `TransferTx` returns
exactly the error that `execTx` returns for its closure. -/
theorem C5_single_failures_pass_through {σ ρ : Type} (store : Store σ)
    (fn : Queries σ → ρ → σ → σ × ρ × Outcome) (c : ρ) (s : σ) :
    (∀ s1 e, store.BeginTx s = (s1, some e) →
      (execTx store fn c s).2.2 = .returned (some e)) ∧
    (∀ s1 s2 c2 s3 e, store.BeginTx s = (s1, none) →
      fn store.New c s1 = (s2, c2, .returned (some e)) → store.Rollback s2 = (s3, none) →
      (execTx store fn c s).2.2 = .returned (some e)) ∧
    (∀ s1 s2 c2 s3 e, store.BeginTx s = (s1, none) →
      fn store.New c s1 = (s2, c2, .returned none) → store.Commit s2 = (s3, some e) →
      (execTx store fn c s).2.2 = .returned (some e)) ∧
    ((execTx store fn c s).2.2 = .returned none →
      ∃ s1 s2 c2 s3, store.BeginTx s = (s1, none) ∧
        fn store.New c s1 = (s2, c2, .returned none) ∧ store.Commit s2 = (s3, none)) ∧
    (∀ arg : TransferTxParams,
      (TransferTx store arg s).2.2
        = (execTx store (transferFn arg) TransferTxResult.zero s).2.2) := by
  refine ⟨?_, ?_, ?_, ?_, fun _ => rfl⟩
  · intro s1 e hb
    rw [execTx_begin_err store fn c s s1 e hb]
  · intro s1 s2 c2 s3 e hb hf hr
    rw [execTx_rollback_ok store fn c c2 s s1 s2 s3 e hb hf hr]
  · intro s1 s2 c2 s3 e hb hf hc
    rw [execTx_commit store fn c c2 s s1 s2 s3 (some e) hb hf hc]
  · intro h
    rcases hT : execTx store fn c s with ⟨s', c', o⟩
    rw [hT] at h
    simp only at h
    subst h
    obtain ⟨s1, s2, hb, hf, hc⟩ := execTx_ok_inv store fn c s s' c' hT
    exact ⟨s1, s2, c', s', hb, hf, hc⟩

/-- The four parts of C5 with a hypothesis, on the transactional store: begin
fails with `e`; the first write fails with `e` and rollback succeeds; commit
fails with `e`; and a nil return, for which begin, the closure and commit
succeeded. -/
theorem C5_single_failures_pass_through_witness :
    (TransferTx worldStore ⟨1, 2, 100⟩ (world12 [some (.store 3 "no connection")])).2.2
      = .returned (some (.store 3 "no connection")) ∧
    (TransferTx worldStore ⟨1, 2, 100⟩ (world12 [none, some (.store 4 "insert failed")])).2.2
      = .returned (some (.store 4 "insert failed")) ∧
    (TransferTx worldStore ⟨1, 2, 100⟩
        (world12 [none, none, none, none, some (.store 5 "commit failed")])).2.2
      = .returned (some (.store 5 "commit failed")) ∧
    (∃ s1 s2 c2 s3, worldStore.BeginTx (world12 []) = (s1, none) ∧
      transferFn ⟨1, 2, 100⟩ worldStore.New TransferTxResult.zero s1
        = (s2, c2, .returned none) ∧
      worldStore.Commit s2 = (s3, none)) :=
  ⟨(C5_single_failures_pass_through worldStore (transferFn ⟨1, 2, 100⟩)
      TransferTxResult.zero (world12 [some (.store 3 "no connection")])).1 _ _ rfl,
   (C5_single_failures_pass_through worldStore (transferFn ⟨1, 2, 100⟩)
      TransferTxResult.zero (world12 [none, some (.store 4 "insert failed")])).2.1
      _ _ _ _ _ rfl rfl rfl,
   (C5_single_failures_pass_through worldStore (transferFn ⟨1, 2, 100⟩)
      TransferTxResult.zero
      (world12 [none, none, none, none, some (.store 5 "commit failed")])).2.2.1
      _ _ _ _ _ rfl rfl rfl,
   (C5_single_failures_pass_through worldStore (transferFn ⟨1, 2, 100⟩)
      TransferTxResult.zero (world12 [])).2.2.2.1 (by decide)⟩

/-! ## C4 -/

/-- Claim C4, counterexample: the combined error does not let the two causes be
recovered.  Two runs of `execTx` on the transactional store, in which the first
write and then the rollback fail, with different write errors and different
rollback errors, return one and the same error. -/
theorem C4_causes_not_recoverable :
    (execTx worldStore (transferFn ⟨1, 2, 100⟩) TransferTxResult.zero
        (world12 [none, some (.store 7 "a, rb err: b"), some (.store 8 "c")])).2.2
      = .returned (some (.errorString "tx err: a, rb err: b, rb err: c")) ∧
    (execTx worldStore (transferFn ⟨1, 2, 100⟩) TransferTxResult.zero
        (world12 [none, some (.store 7 "a"), some (.store 8 "b, rb err: c")])).2.2
      = .returned (some (.errorString "tx err: a, rb err: b, rb err: c")) ∧
    GoError.store 7 "a, rb err: b" ≠ GoError.store 7 "a" ∧
    GoError.store 8 "c" ≠ GoError.store 8 "b, rb err: c" := by
  decide

/-- Claim C4, amended: when the unit of work fails with `e` and the rollback
fails with `r`, `execTx` returns a new error that holds only the text
`"tx err: " ++ v(e) ++ ", rb err: " ++ v(r)`, where `v` is what the verb `%v`
prints: the output of the cause's `Format` method when it implements
`fmt.Formatter`, and else its `Error()` text.  These two texts occur in the
returned message, so the `Error()` text of a cause without a `Format` method
occurs in it; the error values themselves are not kept. -/
theorem C4_combined_error_text {σ ρ : Type} (store : Store σ)
    (fn : Queries σ → ρ → σ → σ × ρ × Outcome) (c c2 : ρ) (s s1 s2 s3 : σ) (e r : GoError)
    (hb : store.BeginTx s = (s1, none))
    (hf : fn store.New c s1 = (s2, c2, .returned (some e)))
    (hr : store.Rollback s2 = (s3, some r)) :
    (execTx store fn c s).2.2
      = .returned (some (.errorString ("tx err: " ++ e.verbV ++ ", rb err: " ++ r.verbV))) ∧
    textContains (Errorf e r).Error e.verbV ∧
    textContains (Errorf e r).Error r.verbV ∧
    (e.hasFormat = false → e.verbV = e.Error ∧ textContains (Errorf e r).Error e.Error) ∧
    (r.hasFormat = false → r.verbV = r.Error ∧ textContains (Errorf e r).Error r.Error) := by
  have he : textContains (Errorf e r).Error e.verbV := by
    refine ⟨"tx err: ".data, (", rb err: " ++ r.verbV).data, ?_⟩
    simp [Errorf, GoError.Error, String.data_append]
  have hrr : textContains (Errorf e r).Error r.verbV := by
    refine ⟨("tx err: " ++ e.verbV ++ ", rb err: ").data, [], ?_⟩
    simp [Errorf, GoError.Error, String.data_append]
  refine ⟨?_, he, hrr, ?_, ?_⟩
  · rw [execTx_rollback_err store fn c c2 s s1 s2 s3 e r hb hf hr]
    rfl
  · intro h
    have hv : e.verbV = e.Error := by
      cases e <;> simp [GoError.hasFormat] at h <;> rfl
    exact ⟨hv, hv ▸ he⟩
  · intro h
    have hv : r.verbV = r.Error := by
      cases r <;> simp [GoError.hasFormat] at h <;> rfl
    exact ⟨hv, hv ▸ hrr⟩

/-- The amended C4 on the transactional store: the second write of a transfer
fails with a cause whose `Error()` text is "boom" and whose `Format` method
writes "boom (23503)", the rollback fails with the plain cause "gone", and
`TransferTx` returns the text-only error "tx err: boom (23503), rb err: gone",
in which "gone" occurs. -/
theorem C4_combined_error_text_witness :
    (TransferTx worldStore ⟨1, 2, 100⟩
        (world12 [none, none, some (.formatter 5 "boom" "boom (23503)"),
          some (.store 6 "gone")])).2.2
      = .returned (some (.errorString "tx err: boom (23503), rb err: gone")) ∧
    textContains (Errorf (.formatter 5 "boom" "boom (23503)") (.store 6 "gone")).Error
      "boom (23503)" ∧
    textContains (Errorf (.formatter 5 "boom" "boom (23503)") (.store 6 "gone")).Error
      "gone" :=
  ⟨(C4_combined_error_text worldStore (transferFn ⟨1, 2, 100⟩) TransferTxResult.zero _
      (world12 [none, none, some (.formatter 5 "boom" "boom (23503)"),
        some (.store 6 "gone")]) _ _ _
      (.formatter 5 "boom" "boom (23503)") (.store 6 "gone") rfl rfl rfl).1,
   (C4_combined_error_text worldStore (transferFn ⟨1, 2, 100⟩) TransferTxResult.zero _
      (world12 [none, none, some (.formatter 5 "boom" "boom (23503)"),
        some (.store 6 "gone")]) _ _ _
      (.formatter 5 "boom" "boom (23503)") (.store 6 "gone") rfl rfl rfl).2.1,
   ((C4_combined_error_text worldStore (transferFn ⟨1, 2, 100⟩) TransferTxResult.zero _
      (world12 [none, none, some (.formatter 5 "boom" "boom (23503)"),
        some (.store 6 "gone")]) _ _ _
      (.formatter 5 "boom" "boom (23503)") (.store 6 "gone") rfl rfl rfl).2.2.2.2 rfl).2⟩

/-! ## C6 -/

/-- Claim C6, counterexample: the debit entry of a transfer fails after the
transfer row was created; `TransferTx` returns the error together with a result
whose `Transfer` field holds the created row, not the zero value. -/
theorem C6_error_with_partly_filled_result :
    (TransferTx worldStore ⟨1, 2, 100⟩
        (world12 [none, none, some (.store 5 "boom")])).2.2
      = .returned (some (.store 5 "boom")) ∧
    (TransferTx worldStore ⟨1, 2, 100⟩
        (world12 [none, none, some (.store 5 "boom")])).2.1.Transfer = ⟨1, 1, 2, 100, 7⟩ ∧
    (TransferTx worldStore ⟨1, 2, 100⟩
        (world12 [none, none, some (.store 5 "boom")])).2.1 ≠ TransferTxResult.zero := by
  decide

/-- The value of `result` after the closure, for each way the three create
calls can answer: every row a create call returned has been assigned, with or
without an error, and nothing else has. -/
theorem transferFn_result {σ : Type} (store : Store σ) (arg : TransferTxParams) (s : σ) :
    ((answer1 store arg s).2.2 ≠ none →
      (transferFn arg store.New TransferTxResult.zero (store.BeginTx s).1).2.1
        = ⟨(answer1 store arg s).2.1, Account.zero, Account.zero, Entry.zero, Entry.zero⟩) ∧
    ((answer1 store arg s).2.2 = none → (answer2 store arg s).2.2 ≠ none →
      (transferFn arg store.New TransferTxResult.zero (store.BeginTx s).1).2.1
        = ⟨(answer1 store arg s).2.1, Account.zero, Account.zero,
            (answer2 store arg s).2.1, Entry.zero⟩) ∧
    ((answer1 store arg s).2.2 = none → (answer2 store arg s).2.2 = none →
      (transferFn arg store.New TransferTxResult.zero (store.BeginTx s).1).2.1
        = ⟨(answer1 store arg s).2.1, Account.zero, Account.zero,
            (answer2 store arg s).2.1, (answer3 store arg s).2.1⟩) := by
  unfold answer3 answer2 answer1
  rcases h1 : store.New.CreateTransfer ⟨arg.FromAccountID, arg.ToAccountID, arg.Amount⟩
    (store.BeginTx s).1 with ⟨s1, t, _ | e⟩
  · rcases h2 : store.New.CreateEntry ⟨arg.FromAccountID, neg64 arg.Amount⟩ s1
      with ⟨s2, e1, _ | e⟩
    · rcases h3 : store.New.CreateEntry ⟨arg.ToAccountID, arg.Amount⟩ s2
        with ⟨s3, e2, _ | e⟩ <;>
        simp [transferFn, TransferTxResult.zero, h1, h2, h3]
    · simp [transferFn, TransferTxResult.zero, h1, h2]
  · simp [transferFn, TransferTxResult.zero, h1]

/-- Claim C6, amended: with a nil error the result holds, in `Transfer`,
`FromEntry` and `ToEntry`, the rows returned by the three create calls, which
all succeeded.  With a non-nil error the result is exactly what the closure had
assigned before the failure: the zero value when begin-transaction failed; the
row returned by create-transfer alone when create-transfer failed; that row and
the row returned for the debit entry when the debit entry failed; and these two
and the row returned for the credit entry once the debit entry succeeded,
whether the credit entry, the rollback or the commit then fails.  `FromAccount`
and `ToAccount` are the zero value in every case. -/
theorem C6_result_holds_what_was_assigned {σ : Type} (store : Store σ)
    (arg : TransferTxParams) (s : σ) :
    ((TransferTx store arg s).2.2 = .returned none →
      ∃ s1 s2 s3 s4 t e1 e2,
        store.BeginTx s = (s1, none) ∧
        store.New.CreateTransfer ⟨arg.FromAccountID, arg.ToAccountID, arg.Amount⟩ s1
          = (s2, t, none) ∧
        store.New.CreateEntry ⟨arg.FromAccountID, neg64 arg.Amount⟩ s2 = (s3, e1, none) ∧
        store.New.CreateEntry ⟨arg.ToAccountID, arg.Amount⟩ s3 = (s4, e2, none) ∧
        (TransferTx store arg s).2.1 = ⟨t, Account.zero, Account.zero, e1, e2⟩) ∧
    ((store.BeginTx s).2 ≠ none → (TransferTx store arg s).2.1 = TransferTxResult.zero) ∧
    ((store.BeginTx s).2 = none →
      (TransferTx store arg s).2.1.Transfer
        = (store.New.CreateTransfer ⟨arg.FromAccountID, arg.ToAccountID, arg.Amount⟩
            (store.BeginTx s).1).2.1) ∧
    (TransferTx store arg s).2.1.FromAccount = Account.zero ∧
    (TransferTx store arg s).2.1.ToAccount = Account.zero ∧
    ((store.BeginTx s).2 = none → (answer1 store arg s).2.2 ≠ none →
      (TransferTx store arg s).2.1
        = ⟨(answer1 store arg s).2.1, Account.zero, Account.zero, Entry.zero, Entry.zero⟩) ∧
    ((store.BeginTx s).2 = none → (answer1 store arg s).2.2 = none →
      (answer2 store arg s).2.2 ≠ none →
      (TransferTx store arg s).2.1
        = ⟨(answer1 store arg s).2.1, Account.zero, Account.zero,
            (answer2 store arg s).2.1, Entry.zero⟩) ∧
    ((store.BeginTx s).2 = none → (answer1 store arg s).2.2 = none →
      (answer2 store arg s).2.2 = none →
      (TransferTx store arg s).2.1
        = ⟨(answer1 store arg s).2.1, Account.zero, Account.zero,
            (answer2 store arg s).2.1, (answer3 store arg s).2.1⟩) ∧
    ((store.BeginTx s).2 = none →
      ((TransferTx store arg s).2.2 = .returned none →
        (answer1 store arg s).2.2 = none ∧ (answer2 store arg s).2.2 = none ∧
        (answer3 store arg s).2.2 = none) ∧
      ((answer1 store arg s).2.2 ≠ none ∨ (answer2 store arg s).2.2 ≠ none ∨
          (answer3 store arg s).2.2 ≠ none →
        (TransferTx store arg s).2.2 ≠ .returned none)) := by
  have hcap := execTx_captured store (transferFn arg) TransferTxResult.zero s
  obtain ⟨hr1, hr2, hr3⟩ := transferFn_result store arg s
  have hnil : (TransferTx store arg s).2.2 = .returned none →
      (answer1 store arg s).2.2 = none ∧ (answer2 store arg s).2.2 = none ∧
      (answer3 store arg s).2.2 = none := by
    intro hok
    obtain ⟨s1, s2, s3, s4, s5, t, e1, e2, hb, h1, h2, h3, -, -⟩ :=
      TransferTx_ok_inv store arg s hok
    have k1 : (answer1 store arg s) = (s2, t, none) := by
      unfold answer1
      rw [hb]
      exact h1
    have k2 : (answer2 store arg s) = (s3, e1, none) := by
      unfold answer2
      rw [k1]
      exact h2
    have k3 : (answer3 store arg s) = (s4, e2, none) := by
      unfold answer3
      rw [k2]
      exact h3
    rw [k1, k2, k3]
    exact ⟨rfl, rfl, rfl⟩
  refine ⟨?_, hcap.1, ?_, ?_, ?_, ?_, ?_, ?_, ?_⟩
  · intro hok
    obtain ⟨s1, s2, s3, s4, s5, t, e1, e2, hb, h1, h2, h3, -, hT⟩ :=
      TransferTx_ok_inv store arg s hok
    exact ⟨s1, s2, s3, s4, t, e1, e2, hb, h1, h2, h3, by rw [hT]; rfl⟩
  · intro hb
    unfold TransferTx
    rw [hcap.2 hb]
    exact (transferFn_fields arg store.New _ _).1
  · by_cases hb : (store.BeginTx s).2 = none
    · unfold TransferTx
      rw [hcap.2 hb]
      exact (transferFn_fields arg store.New _ _).2.1
    · unfold TransferTx
      rw [hcap.1 hb]
      rfl
  · by_cases hb : (store.BeginTx s).2 = none
    · unfold TransferTx
      rw [hcap.2 hb]
      exact (transferFn_fields arg store.New _ _).2.2
    · unfold TransferTx
      rw [hcap.1 hb]
      rfl
  · intro hb h1
    unfold TransferTx
    rw [hcap.2 hb]
    exact hr1 h1
  · intro hb h1 h2
    unfold TransferTx
    rw [hcap.2 hb]
    exact hr2 h1 h2
  · intro hb h1 h2
    unfold TransferTx
    rw [hcap.2 hb]
    exact hr3 h1 h2
  · intro _
    refine ⟨hnil, ?_⟩
    intro h hok
    obtain ⟨k1, k2, k3⟩ := hnil hok
    rcases h with h | h | h
    · exact h k1
    · exact h k2
    · exact h k3

/-- The amended C6 on the transactional store: a successful transfer returns
the three rows; a failed begin returns the zero value; a failed create-transfer
returns the row that call returned and nothing else; a failed debit entry
returns the created transfer row and the row of the failed call; a failed
credit entry, and a failed commit, return all three rows with the error. -/
theorem C6_result_holds_what_was_assigned_witness :
    (∃ s1 s2 s3 s4 t e1 e2,
        worldStore.BeginTx (world12 []) = (s1, none) ∧
        worldStore.New.CreateTransfer ⟨1, 2, 100⟩ s1 = (s2, t, none) ∧
        worldStore.New.CreateEntry ⟨1, neg64 100⟩ s2 = (s3, e1, none) ∧
        worldStore.New.CreateEntry ⟨2, 100⟩ s3 = (s4, e2, none) ∧
        (TransferTx worldStore ⟨1, 2, 100⟩ (world12 [])).2.1
          = ⟨t, Account.zero, Account.zero, e1, e2⟩) ∧
    (TransferTx worldStore ⟨1, 2, 100⟩ (world12 [some (.store 3 "no connection")])).2.1
      = TransferTxResult.zero ∧
    (TransferTx worldStore ⟨1, 2, 100⟩
        (world12 [none, none, some (.store 5 "boom")])).2.1.Transfer
      = (worldStore.New.CreateTransfer ⟨1, 2, 100⟩
          (worldStore.BeginTx (world12 [none, none, some (.store 5 "boom")])).1).2.1 ∧
    (TransferTx worldStore ⟨1, 2, 100⟩ (world12 [none, some (.store 4 "insert failed")])).2.1
      = ⟨Transfer.zero, Account.zero, Account.zero, Entry.zero, Entry.zero⟩ ∧
    (TransferTx worldStore ⟨1, 2, 100⟩ (world12 [none, none, some (.store 5 "boom")])).2.1
      = ⟨⟨1, 1, 2, 100, 7⟩, Account.zero, Account.zero, Entry.zero, Entry.zero⟩ ∧
    (TransferTx worldStore ⟨1, 2, 100⟩
        (world12 [none, none, none, some (.store 5 "connection dropped")])).2.1
      = ⟨⟨1, 1, 2, 100, 7⟩, Account.zero, Account.zero, ⟨1, 1, -100, 7⟩, Entry.zero⟩ ∧
    (TransferTx worldStore ⟨1, 2, 100⟩
        (world12 [none, none, none, none, some (.store 6 "commit failed")])).2.1
      = ⟨⟨1, 1, 2, 100, 7⟩, Account.zero, Account.zero, ⟨1, 1, -100, 7⟩, ⟨2, 2, 100, 7⟩⟩ ∧
    (TransferTx worldStore ⟨1, 2, 100⟩
        (world12 [none, none, none, some (.store 5 "connection dropped")])).2.2
      ≠ .returned none :=
  ⟨(C6_result_holds_what_was_assigned worldStore ⟨1, 2, 100⟩ (world12 [])).1 (by decide),
   (C6_result_holds_what_was_assigned worldStore ⟨1, 2, 100⟩
      (world12 [some (.store 3 "no connection")])).2.1 (by decide),
   (C6_result_holds_what_was_assigned worldStore ⟨1, 2, 100⟩
      (world12 [none, none, some (.store 5 "boom")])).2.2.1 (by decide),
   (C6_result_holds_what_was_assigned worldStore ⟨1, 2, 100⟩
      (world12 [none, some (.store 4 "insert failed")])).2.2.2.2.2.1 (by decide) (by decide),
   (C6_result_holds_what_was_assigned worldStore ⟨1, 2, 100⟩
      (world12 [none, none, some (.store 5 "boom")])).2.2.2.2.2.2.1
      (by decide) (by decide) (by decide),
   (C6_result_holds_what_was_assigned worldStore ⟨1, 2, 100⟩
      (world12 [none, none, none, some (.store 5 "connection dropped")])).2.2.2.2.2.2.2.1
      (by decide) (by decide) (by decide),
   (C6_result_holds_what_was_assigned worldStore ⟨1, 2, 100⟩
      (world12 [none, none, none, none, some (.store 6 "commit failed")])).2.2.2.2.2.2.2.1
      (by decide) (by decide) (by decide),
   ((C6_result_holds_what_was_assigned worldStore ⟨1, 2, 100⟩
      (world12 [none, none, none, some (.store 5 "connection dropped")])).2.2.2.2.2.2.2.2
      (by decide)).2 (Or.inr (Or.inr (by decide)))⟩

/-! ## The transactional store -/

/-- The closure preserves every observation of the state that the two create
calls preserve. -/
theorem transferFn_preserves {σ α : Type} (obs : σ → α) (q : Queries σ)
    (hT : ∀ a s, obs (q.CreateTransfer a s).1 = obs s)
    (hE : ∀ a s, obs (q.CreateEntry a s).1 = obs s)
    (arg : TransferTxParams) (result : TransferTxResult) (s : σ) :
    obs (transferFn arg q result s).1 = obs s := by
  rcases hR : transferFn arg q result s with ⟨s', r', o⟩
  unfold transferFn at hR
  have k1 := hT ⟨arg.FromAccountID, arg.ToAccountID, arg.Amount⟩ s
  rcases h1 : q.CreateTransfer ⟨arg.FromAccountID, arg.ToAccountID, arg.Amount⟩ s
    with ⟨s1, t, _ | e⟩
  · rw [h1] at hR k1
    have k2 := hE ⟨arg.FromAccountID, neg64 arg.Amount⟩ s1
    rcases h2 : q.CreateEntry ⟨arg.FromAccountID, neg64 arg.Amount⟩ s1 with ⟨s2, e1, _ | e⟩
    · simp only [h2] at hR k2
      have k3 := hE ⟨arg.ToAccountID, arg.Amount⟩ s2
      rcases h3 : q.CreateEntry ⟨arg.ToAccountID, arg.Amount⟩ s2 with ⟨s3, e2, _ | e⟩ <;>
      · simp only [h3, Prod.mk.injEq] at hR k3
        obtain ⟨rfl, -, -⟩ := hR
        simp only at k1
        rw [k3, k2, k1]
    · simp only [h2, Prod.mk.injEq] at hR k2
      obtain ⟨rfl, -, -⟩ := hR
      simp only at k1
      rw [k2, k1]
  · simp only [h1, Prod.mk.injEq] at hR k1
    obtain ⟨rfl, -, -⟩ := hR
    exact k1

/-- A call of `execTx` that does not return nil preserves every observation of
the state that begin, the unit of work, rollback and a failed commit preserve. -/
theorem execTx_preserves {σ ρ α : Type} (obs : σ → α) (store : Store σ)
    (fn : Queries σ → ρ → σ → σ × ρ × Outcome)
    (hB : ∀ s, obs (store.BeginTx s).1 = obs s)
    (hF : ∀ c s, obs (fn store.New c s).1 = obs s)
    (hR : ∀ s, obs (store.Rollback s).1 = obs s)
    (hC : ∀ s, (store.Commit s).2 ≠ none → obs (store.Commit s).1 = obs s)
    (c : ρ) (s : σ) (hne : (execTx store fn c s).2.2 ≠ .returned none) :
    obs (execTx store fn c s).1 = obs s := by
  have kB := hB s
  rcases hb : store.BeginTx s with ⟨s1, _ | e⟩
  · rw [hb] at kB
    have kF := hF c s1
    rcases hf : fn store.New c s1 with ⟨s2, c2, (_ | e) | _⟩
    · rw [hf] at kF
      have kC := hC s2
      rcases hc : store.Commit s2 with ⟨s3, err⟩
      rw [execTx_commit store fn c c2 s s1 s2 s3 err hb hf hc] at hne ⊢
      rw [hc] at kC
      simp only at kB kF kC hne ⊢
      have herr : err ≠ none := fun h => hne (by rw [h])
      rw [kC herr, kF, kB]
    · rw [hf] at kF
      have kR := hR s2
      rcases hr : store.Rollback s2 with ⟨s3, _ | r⟩
      · rw [execTx_rollback_ok store fn c c2 s s1 s2 s3 e hb hf hr]
        rw [hr] at kR
        simp only at kB kF kR ⊢
        rw [kR, kF, kB]
      · rw [execTx_rollback_err store fn c c2 s s1 s2 s3 e r hb hf hr]
        rw [hr] at kR
        simp only at kB kF kR ⊢
        rw [kR, kF, kB]
    · rw [execTx_panic store fn c c2 s s1 s2 hb hf]
      rw [hf] at kF
      simp only at kB kF ⊢
      rw [kF, kB]
  · rw [execTx_begin_err store fn c s s1 e hb]
    rw [hb] at kB
    exact kB

/-- `TransferTx` never panics: it always returns. -/
theorem TransferTx_returns {σ : Type} (store : Store σ) (arg : TransferTxParams) (s : σ) :
    (TransferTx store arg s).2.2 ≠ .panicked := by
  unfold TransferTx
  rcases hb : store.BeginTx s with ⟨s1, _ | e⟩
  · have hp := transferFn_returns arg store.New TransferTxResult.zero s1
    rcases hf : transferFn arg store.New TransferTxResult.zero s1 with ⟨s2, c2, (_ | e) | _⟩
    · rcases hc : store.Commit s2 with ⟨s3, err⟩
      rw [execTx_commit store _ _ c2 s s1 s2 s3 err hb hf hc]
      simp
    · rcases hr : store.Rollback s2 with ⟨s3, _ | r⟩
      · rw [execTx_rollback_ok store _ _ c2 s s1 s2 s3 e hb hf hr]
        simp
      · rw [execTx_rollback_err store _ _ c2 s s1 s2 s3 e r hb hf hr]
        simp
    · rw [hf] at hp
      exact absurd rfl hp
  · rw [execTx_begin_err store _ _ s s1 e hb]
    simp

theorem World.BeginTx_committed (w : World) : (World.BeginTx w).1.committed = w.committed := by
  unfold World.BeginTx
  rcases w.fault with _ | e <;> rfl

theorem World.CreateTransfer_committed (arg : CreateTransferParams) (w : World) :
    (World.CreateTransfer arg w).1.committed = w.committed := by
  unfold World.CreateTransfer
  rcases w.fault with _ | e
  · rcases w.tx with _ | db <;> rfl
  · rfl

theorem World.CreateEntry_committed (arg : CreateEntryParams) (w : World) :
    (World.CreateEntry arg w).1.committed = w.committed := by
  unfold World.CreateEntry
  rcases w.fault with _ | e
  · rcases w.tx with _ | db <;> rfl
  · rfl

theorem World.Rollback_committed (w : World) : (World.Rollback w).1.committed = w.committed := by
  unfold World.Rollback
  rcases w.fault with _ | e
  · rcases w.tx with _ | db <;> rfl
  · rfl

theorem World.Commit_committed (w : World) (h : (World.Commit w).2 ≠ none) :
    (World.Commit w).1.committed = w.committed := by
  unfold World.Commit at h ⊢
  rcases hf : w.fault with _ | e
  · rcases ht : w.tx with _ | db
    · rfl
    · simp [hf, ht] at h
  · rfl

/-- On the transactional store, a call of `TransferTx` that does not return nil
leaves the committed state as it was. -/
theorem TransferTx_world_failed (w : World) (arg : TransferTxParams)
    (hne : (TransferTx worldStore arg w).2.2 ≠ .returned none) :
    (TransferTx worldStore arg w).1.committed = w.committed :=
  execTx_preserves World.committed worldStore (transferFn arg)
    World.BeginTx_committed
    (fun c s => transferFn_preserves World.committed worldStore.New
      World.CreateTransfer_committed World.CreateEntry_committed arg c s)
    World.Rollback_committed World.Commit_committed TransferTxResult.zero w hne

theorem World.BeginTx_ok (w w1 : World) (h : World.BeginTx w = (w1, none)) :
    w1 = { w.advance with tx := some w.committed } := by
  unfold World.BeginTx at h
  rcases hf : w.fault with _ | e
  · simp only [hf, Prod.mk.injEq, and_true] at h
    exact h.symm
  · simp [hf] at h

theorem World.CreateTransfer_ok (arg : CreateTransferParams) (w w1 : World) (t : Transfer)
    (h : World.CreateTransfer arg w = (w1, t, none)) :
    ∃ db, w.tx = some db ∧
      t = ⟨w.transferSeq, arg.FromAccountID, arg.ToAccountID, arg.Amount, w.now⟩ ∧
      w1 = { w.advance with
              tx := some { db with transfers := db.transfers ++ [t] }
              transferSeq := w.transferSeq + 1 } := by
  unfold World.CreateTransfer at h
  rcases hf : w.fault with _ | e
  · rcases ht : w.tx with _ | db
    · simp [hf, ht] at h
    · simp only [hf, ht, Prod.mk.injEq, and_true] at h
      obtain ⟨h1, h2⟩ := h
      exact ⟨db, rfl, h2.symm, by rw [← h1, ← h2]⟩
  · simp [hf] at h

theorem World.CreateEntry_ok (arg : CreateEntryParams) (w w1 : World) (en : Entry)
    (h : World.CreateEntry arg w = (w1, en, none)) :
    ∃ db, w.tx = some db ∧
      en = ⟨w.entrySeq, arg.AccountID, arg.Amount, w.now⟩ ∧
      w1 = { w.advance with
              tx := some { db with entries := db.entries ++ [en] }
              entrySeq := w.entrySeq + 1 } := by
  unfold World.CreateEntry at h
  rcases hf : w.fault with _ | e
  · rcases ht : w.tx with _ | db
    · simp [hf, ht] at h
    · simp only [hf, ht, Prod.mk.injEq, and_true] at h
      obtain ⟨h1, h2⟩ := h
      exact ⟨db, rfl, h2.symm, by rw [← h1, ← h2]⟩
  · simp [hf] at h

theorem World.Commit_ok (w w1 : World) (h : World.Commit w = (w1, none)) :
    ∃ db, w.tx = some db ∧ w1 = { w.advance with committed := db, tx := none } := by
  unfold World.Commit at h
  rcases hf : w.fault with _ | e
  · rcases ht : w.tx with _ | db
    · simp [hf, ht] at h
    · simp only [hf, ht, Prod.mk.injEq, and_true] at h
      exact ⟨db, rfl, h.symm⟩
  · simp [hf] at h

/-- On the transactional store, a call of `TransferTx` that returns nil commits
one transfer row and two entry rows, numbered from the sequences, and returns
exactly these rows. -/
theorem TransferTx_world_ok (w : World) (arg : TransferTxParams)
    (hok : (TransferTx worldStore arg w).2.2 = .returned none) :
    (TransferTx worldStore arg w).1.committed =
      { accounts := w.committed.accounts
        transfers := w.committed.transfers ++
          [⟨w.transferSeq, arg.FromAccountID, arg.ToAccountID, arg.Amount, w.now⟩]
        entries := w.committed.entries ++
          [⟨w.entrySeq, arg.FromAccountID, neg64 arg.Amount, w.now⟩,
           ⟨w.entrySeq + 1, arg.ToAccountID, arg.Amount, w.now⟩] } ∧
    (TransferTx worldStore arg w).2.1 =
      ⟨⟨w.transferSeq, arg.FromAccountID, arg.ToAccountID, arg.Amount, w.now⟩,
        Account.zero, Account.zero,
        ⟨w.entrySeq, arg.FromAccountID, neg64 arg.Amount, w.now⟩,
        ⟨w.entrySeq + 1, arg.ToAccountID, arg.Amount, w.now⟩⟩ ∧
    (TransferTx worldStore arg w).1.transferSeq = w.transferSeq + 1 ∧
    (TransferTx worldStore arg w).1.entrySeq = w.entrySeq + 2 ∧
    (TransferTx worldStore arg w).1.now = w.now := by
  obtain ⟨w1, w2, w3, w4, w5, t, e1, e2, hb, h1, h2, h3, hc, hT⟩ :=
    TransferTx_ok_inv worldStore arg w hok
  have kb := World.BeginTx_ok w w1 hb
  obtain ⟨db1, hd1, ht, k1⟩ := World.CreateTransfer_ok _ w1 w2 t h1
  obtain ⟨db2, hd2, he1, k2⟩ := World.CreateEntry_ok _ w2 w3 e1 h2
  obtain ⟨db3, hd3, he2, k3⟩ := World.CreateEntry_ok _ w3 w4 e2 h3
  obtain ⟨db4, hd4, k4⟩ := World.Commit_ok w4 w5 hc
  subst kb
  simp only [World.advance, Option.some.injEq] at hd1 ht
  subst hd1
  subst k1
  simp only [World.advance, Option.some.injEq] at hd2 he1
  subst hd2
  subst k2
  simp only [World.advance, Option.some.injEq] at hd3 he2
  subst hd3
  subst k3
  simp only [World.advance, Option.some.injEq] at hd4
  subst hd4
  subst k4
  rw [hT]
  subst ht he1 he2
  simp [World.advance, TransferTxResult.zero, add_assoc]

/-! ## C2 -/

/-- Claim C2: `TransferTx` is all-or-nothing on the committed state of the
transactional store.  If it returns nil, the committed state gains exactly the
returned transfer row and the two returned entry rows and nothing else; if it
returns an error, whichever of begin, the three writes, rollback or commit
failed, the committed state is the one before the call; and it always returns. -/
theorem C2_all_or_nothing (w : World) (arg : TransferTxParams) :
    ((TransferTx worldStore arg w).2.2 = .returned none →
      (TransferTx worldStore arg w).1.committed =
        { accounts := w.committed.accounts
          transfers := w.committed.transfers ++ [(TransferTx worldStore arg w).2.1.Transfer]
          entries := w.committed.entries ++
            [(TransferTx worldStore arg w).2.1.FromEntry,
             (TransferTx worldStore arg w).2.1.ToEntry] }) ∧
    (∀ e, (TransferTx worldStore arg w).2.2 = .returned (some e) →
      (TransferTx worldStore arg w).1.committed = w.committed) ∧
    (TransferTx worldStore arg w).2.2 ≠ .panicked := by
  refine ⟨?_, ?_, TransferTx_returns worldStore arg w⟩
  · intro hok
    obtain ⟨hc, hr, -⟩ := TransferTx_world_ok w arg hok
    rw [hc, hr]
  · intro e he
    apply TransferTx_world_failed
    rw [he]
    simp

/-- The two halves of C2 on the store with accounts 1 and 2: a successful
transfer of 100 commits one transfer and two entries; when the credit entry
fails, the transfer row written by the first step is not committed. -/
theorem C2_all_or_nothing_witness :
    (TransferTx worldStore ⟨1, 2, 100⟩ (world12 [])).1.committed =
      { accounts := (world12 []).committed.accounts
        transfers := [⟨1, 1, 2, 100, 7⟩]
        entries := [⟨1, 1, -100, 7⟩, ⟨2, 2, 100, 7⟩] } ∧
    (TransferTx worldStore ⟨1, 2, 100⟩
        (world12 [none, none, none, some (.store 5 "connection dropped")])).1.committed
      = (world12 [none, none, none, some (.store 5 "connection dropped")]).committed :=
  ⟨(C2_all_or_nothing (world12 []) ⟨1, 2, 100⟩).1 (by decide),
   (C2_all_or_nothing (world12 [none, none, none, some (.store 5 "connection dropped")])
      ⟨1, 2, 100⟩).2.1 (.store 5 "connection dropped") (by decide)⟩

/-! ## C7 -/

/-- Claim C7: `TransferTx` does not deduplicate.  Two successive successful
calls with the same argument add two distinct transfer rows and four distinct
entry rows to the committed state: the second call adds one more transfer and
two more entries to what the first call left, and does not leave it as it was. -/
theorem C7_two_calls_two_transfers (w : World) (arg : TransferTxParams)
    (h1 : (TransferTx worldStore arg w).2.2 = .returned none)
    (h2 : (secondCall arg w).2.2 = .returned none) :
    (secondCall arg w).1.committed.transfers =
      w.committed.transfers ++
        [(TransferTx worldStore arg w).2.1.Transfer, (secondCall arg w).2.1.Transfer] ∧
    (TransferTx worldStore arg w).2.1.Transfer ≠ (secondCall arg w).2.1.Transfer ∧
    (secondCall arg w).1.committed.entries =
      w.committed.entries ++
        [(TransferTx worldStore arg w).2.1.FromEntry, (TransferTx worldStore arg w).2.1.ToEntry,
         (secondCall arg w).2.1.FromEntry, (secondCall arg w).2.1.ToEntry] ∧
    [(TransferTx worldStore arg w).2.1.FromEntry, (TransferTx worldStore arg w).2.1.ToEntry,
      (secondCall arg w).2.1.FromEntry, (secondCall arg w).2.1.ToEntry].Nodup ∧
    (secondCall arg w).1.committed.transfers =
      (TransferTx worldStore arg w).1.committed.transfers ++ [(secondCall arg w).2.1.Transfer] ∧
    (secondCall arg w).1.committed.entries =
      (TransferTx worldStore arg w).1.committed.entries ++
        [(secondCall arg w).2.1.FromEntry, (secondCall arg w).2.1.ToEntry] ∧
    (secondCall arg w).1.committed ≠ (TransferTx worldStore arg w).1.committed := by
  obtain ⟨hc1, hr1, ht1, he1, hn1⟩ := TransferTx_world_ok w arg h1
  obtain ⟨hc2, hr2, -, -, -⟩ := TransferTx_world_ok (TransferTx worldStore arg w).1 arg h2
  unfold secondCall
  rw [hc2, hr2, ht1, he1, hn1, hc1, hr1]
  simp only [List.append_assoc, List.singleton_append, List.cons_append, List.nil_append]
  refine ⟨trivial, ?_, trivial, ?_, trivial, trivial, ?_⟩
  · intro h
    have := congrArg Transfer.ID h
    simp at this
  · simp only [List.nodup_cons, List.mem_cons, List.mem_singleton, Entry.mk.injEq,
      List.not_mem_nil, List.nodup_nil]
    refine ⟨?_, ?_, ?_, ?_, trivial⟩
    · rintro (⟨h, -⟩ | ⟨h, -⟩ | ⟨h, -⟩) <;> first | omega | contradiction
    · rintro (⟨h, -⟩ | ⟨h, -⟩) <;> first | omega | contradiction
    · rintro (⟨h, -⟩ | h) <;> first | omega | contradiction
    · simp
  · intro h
    have := congrArg (fun d => d.transfers.length) h
    simp at this

/-- The claim C7 on the store with accounts 1 and 2: two transfers of 100 from 1
to 2 leave two transfer rows, with identities 1 and 2, and four entry rows. -/
theorem C7_two_calls_two_transfers_witness :
    (secondCall ⟨1, 2, 100⟩ (world12 [])).1.committed.transfers
      = [⟨1, 1, 2, 100, 7⟩, ⟨2, 1, 2, 100, 7⟩] ∧
    (secondCall ⟨1, 2, 100⟩ (world12 [])).1.committed.entries
      = [⟨1, 1, -100, 7⟩, ⟨2, 2, 100, 7⟩, ⟨3, 1, -100, 7⟩, ⟨4, 2, 100, 7⟩] ∧
    (secondCall ⟨1, 2, 100⟩ (world12 [])).1.committed
      ≠ (TransferTx worldStore ⟨1, 2, 100⟩ (world12 [])).1.committed :=
  ⟨(C7_two_calls_two_transfers (world12 []) ⟨1, 2, 100⟩ (by decide) (by decide)).1,
   (C7_two_calls_two_transfers (world12 []) ⟨1, 2, 100⟩ (by decide) (by decide)).2.2.1,
   (C7_two_calls_two_transfers (world12 []) ⟨1, 2, 100⟩
      (by decide) (by decide)).2.2.2.2.2.2⟩

/-! ## C8 -/

/-- Claim C8, counterexample: a transfer of amount 0 between the existing
accounts 1 and 2 meets the preconditions, returns no error, and the transfer
row it commits and returns has amount 0, which is not positive. -/
theorem C8_zero_amount_transfer :
    (0 : Int) ≤ (⟨1, 2, 0⟩ : TransferTxParams).Amount ∧
    (world12 []).committed.accounts.map Account.ID = [1, 2] ∧
    (TransferTx worldStore ⟨1, 2, 0⟩ (world12 [])).2.2 = .returned none ∧
    (TransferTx worldStore ⟨1, 2, 0⟩ (world12 [])).2.1.Transfer = ⟨1, 1, 2, 0, 7⟩ ∧
    (TransferTx worldStore ⟨1, 2, 0⟩ (world12 [])).1.committed.transfers = [⟨1, 1, 2, 0, 7⟩] ∧
    ¬ (0 < (TransferTx worldStore ⟨1, 2, 0⟩ (world12 [])).2.1.Transfer.Amount) := by
  decide

/-- Claim C8, amended: the transfer row created by a call that returns no error
carries the amount of the argument, unchecked; so for every call with
`amount > 0` the row committed to the store and returned in the result has
`amount > 0`. -/
theorem C8_amount_is_the_argument (w : World) (arg : TransferTxParams)
    (hpos : 0 < arg.Amount)
    (hok : (TransferTx worldStore arg w).2.2 = .returned none) :
    (TransferTx worldStore arg w).2.1.Transfer.Amount = arg.Amount ∧
    0 < (TransferTx worldStore arg w).2.1.Transfer.Amount ∧
    (TransferTx worldStore arg w).1.committed.transfers
      = w.committed.transfers ++ [(TransferTx worldStore arg w).2.1.Transfer] := by
  obtain ⟨hc, hr, -⟩ := TransferTx_world_ok w arg hok
  rw [hc, hr]
  exact ⟨rfl, hpos, rfl⟩

/-- The amended C8 at amount 100 on the store with accounts 1 and 2. -/
theorem C8_amount_is_the_argument_witness :
    (TransferTx worldStore ⟨1, 2, 100⟩ (world12 [])).2.1.Transfer.Amount = 100 ∧
    0 < (TransferTx worldStore ⟨1, 2, 100⟩ (world12 [])).2.1.Transfer.Amount ∧
    (TransferTx worldStore ⟨1, 2, 100⟩ (world12 [])).1.committed.transfers
      = (world12 []).committed.transfers ++
          [(TransferTx worldStore ⟨1, 2, 100⟩ (world12 [])).2.1.Transfer] :=
  C8_amount_is_the_argument (world12 []) ⟨1, 2, 100⟩ (by decide) (by decide)

/-! ## C9 -/

/-- Claim C9, evaluated: a successful transfer of 100 from account 1 to account
2, both with balance 500.  The call returns no error; the only calls it makes
are begin, create-transfer, two create-entry and commit; the committed balances
are still 500 and 500; and the `FromAccount` and `ToAccount` fields of the
result are the zero value. -/
theorem C9_balances_not_updated :
    (TransferTx worldStore ⟨1, 2, 100⟩ (world12 [])).2.2 = .returned none ∧
    (journal worldStore ⟨1, 2, 100⟩ (world12 [])).map Event.call
      = [Call.BeginTx, Call.CreateTransfer ⟨1, 2, 100⟩, Call.CreateEntry ⟨1, -100⟩,
          Call.CreateEntry ⟨2, 100⟩, Call.Commit] ∧
    (world12 []).committed.accounts.map Account.Balance = [500, 500] ∧
    (TransferTx worldStore ⟨1, 2, 100⟩ (world12 [])).1.committed.accounts.map Account.Balance
      = [500, 500] ∧
    (TransferTx worldStore ⟨1, 2, 100⟩ (world12 [])).2.1.FromAccount = Account.zero ∧
    (TransferTx worldStore ⟨1, 2, 100⟩ (world12 [])).2.1.ToAccount = Account.zero := by
  decide

/-! ## Journals -/

/-- The journal of the closure on a journalled store: the writes it adds, with
the outcome, for each way the three create calls can answer. -/
theorem transferFn_journal {σ : Type} (store : Store σ) (arg : TransferTxParams)
    (result : TransferTxResult) (s : σ) (log : List Event) :
    ∃ ws : List Event,
      (transferFn arg (traced store).New result (s, log)).1.2 = log ++ ws ∧
      (∀ ev ∈ ws, ev.call.isWrite = true) ∧
      ws.map Event.call <+: transferWrites arg ∧
      (∀ ev ∈ ws.dropLast, ev.err = none) ∧
      ws ≠ [] ∧
      ((transferFn arg (traced store).New result (s, log)).2.2 = .returned none ↔
        ∀ ev ∈ ws, ev.err = none) ∧
      ((∀ ev ∈ ws, ev.err = none) → ws.map Event.call = transferWrites arg) := by
  rcases h1 : store.New.CreateTransfer ⟨arg.FromAccountID, arg.ToAccountID, arg.Amount⟩ s
    with ⟨s1, t, _ | e⟩
  · rcases h2 : store.New.CreateEntry ⟨arg.FromAccountID, neg64 arg.Amount⟩ s1
      with ⟨s2, e1, _ | e⟩
    · rcases h3 : store.New.CreateEntry ⟨arg.ToAccountID, arg.Amount⟩ s2
        with ⟨s3, e2, _ | e⟩
      · refine ⟨[⟨Call.CreateTransfer ⟨arg.FromAccountID, arg.ToAccountID, arg.Amount⟩, none⟩,
          ⟨Call.CreateEntry ⟨arg.FromAccountID, neg64 arg.Amount⟩, none⟩,
          ⟨Call.CreateEntry ⟨arg.ToAccountID, arg.Amount⟩, none⟩], ?_⟩
        simp [transferFn, traced, h1, h2, h3, Call.isWrite, transferWrites]
      · refine ⟨[⟨Call.CreateTransfer ⟨arg.FromAccountID, arg.ToAccountID, arg.Amount⟩, none⟩,
          ⟨Call.CreateEntry ⟨arg.FromAccountID, neg64 arg.Amount⟩, none⟩,
          ⟨Call.CreateEntry ⟨arg.ToAccountID, arg.Amount⟩, some e⟩], ?_⟩
        simp [transferFn, traced, h1, h2, h3, Call.isWrite, transferWrites]
    · refine ⟨[⟨Call.CreateTransfer ⟨arg.FromAccountID, arg.ToAccountID, arg.Amount⟩, none⟩,
        ⟨Call.CreateEntry ⟨arg.FromAccountID, neg64 arg.Amount⟩, some e⟩], ?_⟩
      simp [transferFn, traced, h1, h2, Call.isWrite, transferWrites]
  · refine ⟨[⟨Call.CreateTransfer ⟨arg.FromAccountID, arg.ToAccountID, arg.Amount⟩, some e⟩], ?_⟩
    simp [transferFn, traced, h1, Call.isWrite, transferWrites]

/-- The closure of `TransferTx` only adds writes to the journal. -/
theorem transferFn_queriesOnly {σ : Type} (store : Store σ) (arg : TransferTxParams) :
    QueriesOnly (transferFn arg) (traced store).New := by
  intro c st
  obtain ⟨ws, h, hw, -⟩ := transferFn_journal store arg c st.1 st.2
  exact ⟨ws, h, hw⟩

/-- Journalling does not change a run of `TransferTx`: the store state, the
result and the outcome are those of the run on the plain store. -/
theorem traced_TransferTx {σ : Type} (store : Store σ) (arg : TransferTxParams) (s : σ)
    (log : List Event) :
    (TransferTx (traced store) arg (s, log)).1.1 = (TransferTx store arg s).1 ∧
    (TransferTx (traced store) arg (s, log)).2 = (TransferTx store arg s).2 := by
  rcases hb : store.BeginTx s with ⟨s1, _ | e⟩
  · rcases h1 : store.New.CreateTransfer ⟨arg.FromAccountID, arg.ToAccountID, arg.Amount⟩ s1
      with ⟨s2, t, _ | e⟩
    · rcases h2 : store.New.CreateEntry ⟨arg.FromAccountID, neg64 arg.Amount⟩ s2
        with ⟨s3, e1, _ | e⟩
      · rcases h3 : store.New.CreateEntry ⟨arg.ToAccountID, arg.Amount⟩ s3
          with ⟨s4, e2, _ | e⟩
        · rcases hc : store.Commit s4 with ⟨s5, err⟩
          simp [TransferTx, execTx, transferFn, traced, hb, h1, h2, h3, hc]
        · rcases hr : store.Rollback s4 with ⟨s5, _ | r⟩ <;>
            simp [TransferTx, execTx, transferFn, traced, hb, h1, h2, h3, hr]
      · rcases hr : store.Rollback s3 with ⟨s5, _ | r⟩ <;>
          simp [TransferTx, execTx, transferFn, traced, hb, h1, h2, hr]
    · rcases hr : store.Rollback s2 with ⟨s5, _ | r⟩ <;>
        simp [TransferTx, execTx, transferFn, traced, hb, h1, hr]
  · simp [TransferTx, execTx, traced, hb]

/-- Writes are neither begin, nor commit, nor rollback. -/
theorem filter_writes_eq_nil (p : Event → Bool) (ws : List Event)
    (hw : ∀ ev ∈ ws, ev.call.isWrite = true)
    (hp : ∀ ev : Event, ev.call.isWrite = true → p ev = false) :
    ws.filter p = [] := by
  rw [List.filter_eq_nil_iff]
  intro ev hev
  rw [hp ev (hw ev hev)]
  simp

theorem writes_of_writes (ws : List Event) (hw : ∀ ev ∈ ws, ev.call.isWrite = true) :
    writes ws = ws := by
  unfold writes
  rw [List.filter_eq_self]
  exact hw

theorem countCall_writes (call : Call) (hc : call.isWrite = false) (ws : List Event)
    (hw : ∀ ev ∈ ws, ev.call.isWrite = true) : countCall call ws = 0 := by
  unfold countCall
  rw [filter_writes_eq_nil _ ws hw]
  · rfl
  · intro ev hev
    simp only [decide_eq_false_iff_not]
    intro h
    rw [h, hc] at hev
    exact absurd hev (by simp)

theorem opened_writes (ws : List Event) (hw : ∀ ev ∈ ws, ev.call.isWrite = true) :
    opened ws = 0 := by
  unfold opened
  rw [filter_writes_eq_nil _ ws hw]
  · rfl
  · intro ev hev
    simp only [decide_eq_false_iff_not]
    rintro ⟨h, -⟩
    rw [h] at hev
    exact absurd hev (by simp [Call.isWrite])

/-- The shape of the journal of one call of `execTx` whose unit of work only
adds writes: the begin alone when it fails; else the begin, the writes of the
unit of work, and then a commit when the unit of work returned nil, a rollback
when it returned an error, and nothing when it panicked. -/
theorem execJournal_shape {σ ρ : Type} (store : Store σ)
    (fn : Queries (σ × List Event) → ρ → σ × List Event → (σ × List Event) × ρ × Outcome)
    (hfn : QueriesOnly fn (traced store).New) (c : ρ) (s : σ) :
    (∀ e, (store.BeginTx s).2 = some e →
      execJournal store fn c s = [⟨Call.BeginTx, some e⟩]) ∧
    ((store.BeginTx s).2 = none →
      ∃ ws : List Event, (∀ ev ∈ ws, ev.call.isWrite = true) ∧
        (fn (traced store).New c ((store.BeginTx s).1, [⟨Call.BeginTx, none⟩])).1.2
          = [⟨Call.BeginTx, none⟩] ++ ws ∧
        (((fn (traced store).New c ((store.BeginTx s).1, [⟨Call.BeginTx, none⟩])).2.2
            = .panicked ∧
          execJournal store fn c s = [⟨Call.BeginTx, none⟩] ++ ws) ∨
         ((fn (traced store).New c ((store.BeginTx s).1, [⟨Call.BeginTx, none⟩])).2.2
            = .returned none ∧
          ∃ err, execJournal store fn c s
            = [⟨Call.BeginTx, none⟩] ++ ws ++ [⟨Call.Commit, err⟩]) ∨
         (∃ e, (fn (traced store).New c ((store.BeginTx s).1, [⟨Call.BeginTx, none⟩])).2.2
            = .returned (some e) ∧
          ∃ err, execJournal store fn c s
            = [⟨Call.BeginTx, none⟩] ++ ws ++ [⟨Call.Rollback, err⟩]))) := by
  rcases hb : store.BeginTx s with ⟨s1, _ | e⟩
  · refine ⟨fun e h => by simp at h, fun _ => ?_⟩
    have hb' : (traced store).BeginTx (s, []) = ((s1, [⟨Call.BeginTx, none⟩]), none) := by
      simp [traced, hb]
    obtain ⟨ws, hlog, hw⟩ := hfn c (s1, [⟨Call.BeginTx, none⟩])
    refine ⟨ws, hw, hlog, ?_⟩
    simp only at hlog ⊢
    rcases hf : fn (traced store).New c (s1, [⟨Call.BeginTx, none⟩])
      with ⟨⟨s2, log2⟩, c2, (_ | e) | _⟩
    · rw [hf] at hlog
      simp only at hlog
      subst hlog
      rcases hc : store.Commit s2 with ⟨s3, err⟩
      have hc' : (traced store).Commit (s2, [⟨Call.BeginTx, none⟩] ++ ws)
          = ((s3, [⟨Call.BeginTx, none⟩] ++ ws ++ [⟨Call.Commit, err⟩]), err) := by
        simp [traced, hc]
      right; left
      refine ⟨rfl, err, ?_⟩
      unfold execJournal
      rw [execTx_commit (traced store) fn c c2 _ _ _ _ err hb' hf hc']
    · rw [hf] at hlog
      simp only at hlog
      subst hlog
      right; right
      refine ⟨e, rfl, ?_⟩
      rcases hr : store.Rollback s2 with ⟨s3, _ | r⟩
      · have hr' : (traced store).Rollback (s2, [⟨Call.BeginTx, none⟩] ++ ws)
            = ((s3, [⟨Call.BeginTx, none⟩] ++ ws ++ [⟨Call.Rollback, none⟩]), none) := by
          simp [traced, hr]
        refine ⟨none, ?_⟩
        unfold execJournal
        rw [execTx_rollback_ok (traced store) fn c c2 _ _ _ _ e hb' hf hr']
      · have hr' : (traced store).Rollback (s2, [⟨Call.BeginTx, none⟩] ++ ws)
            = ((s3, [⟨Call.BeginTx, none⟩] ++ ws ++ [⟨Call.Rollback, some r⟩]), some r) := by
          simp [traced, hr]
        refine ⟨some r, ?_⟩
        unfold execJournal
        rw [execTx_rollback_err (traced store) fn c c2 _ _ _ _ e r hb' hf hr']
    · rw [hf] at hlog
      simp only at hlog
      subst hlog
      left
      refine ⟨rfl, ?_⟩
      unfold execJournal
      rw [execTx_panic (traced store) fn c c2 _ _ _ hb' hf]
  · refine ⟨fun e' h => ?_, fun h => by simp at h⟩
    simp only [Option.some.injEq] at h
    subst h
    have hb' : (traced store).BeginTx (s, []) = ((s1, [⟨Call.BeginTx, some e⟩]), some e) := by
      simp [traced, hb]
    unfold execJournal
    rw [execTx_begin_err (traced store) fn c _ _ e hb']

theorem countCall_append (call : Call) (a b : List Event) :
    countCall call (a ++ b) = countCall call a + countCall call b := by
  simp [countCall, List.filter_append]

theorem opened_append (a b : List Event) : opened (a ++ b) = opened a + opened b := by
  simp [opened, List.filter_append]

theorem writes_append (a b : List Event) : writes (a ++ b) = writes a ++ writes b := by
  simp [writes, List.filter_append]

/-- A unit of work that panics: `execTx` has no deferred call, so the journal
ends with the begin and the transaction is neither committed nor rolled back. -/
theorem execTx_panic_journal :
    (execTx (traced worldStore) panicFn TransferTxResult.zero (world12 [], [])).2.2
      = .panicked ∧
    execJournal worldStore panicFn TransferTxResult.zero (world12 [])
      = [⟨Call.BeginTx, none⟩] := by
  decide

/-! ## C3 -/

/-- Claim C3, counterexample: begin-transaction fails.  `execTx` returns at
once: no transaction is opened and neither commit nor rollback is issued, so
the count of commits and rollbacks is 0, not 1. -/
theorem C3_begin_failure_issues_nothing :
    (execTx (traced worldStore) (transferFn ⟨1, 2, 100⟩) TransferTxResult.zero
        (world12 [some (.store 3 "no connection")], [])).2.2
      = .returned (some (.store 3 "no connection")) ∧
    execJournal worldStore (transferFn ⟨1, 2, 100⟩) TransferTxResult.zero
        (world12 [some (.store 3 "no connection")])
      = [⟨Call.BeginTx, some (.store 3 "no connection")⟩] ∧
    opened (execJournal worldStore (transferFn ⟨1, 2, 100⟩) TransferTxResult.zero
        (world12 [some (.store 3 "no connection")])) = 0 ∧
    countCall Call.Commit (execJournal worldStore (transferFn ⟨1, 2, 100⟩)
        TransferTxResult.zero (world12 [some (.store 3 "no connection")]))
      + countCall Call.Rollback (execJournal worldStore (transferFn ⟨1, 2, 100⟩)
        TransferTxResult.zero (world12 [some (.store 3 "no connection")])) = 0 := by
  decide

/-- Claim C3, amended: for every invocation of `execTx` that returns, with any
store and any unit of work (which holds only the handle `q`), begin-transaction
is called exactly once.  When it fails, no transaction is opened and neither
commit nor rollback is issued.  When it succeeds, exactly one transaction is
opened and exactly one of commit and rollback is issued on it, never both and
never twice: commit exactly when the unit of work returned nil. -/
theorem C3_one_begin_then_commit_or_rollback {σ ρ : Type} (store : Store σ)
    (fn : Queries (σ × List Event) → ρ → σ × List Event → (σ × List Event) × ρ × Outcome)
    (hfn : QueriesOnly fn (traced store).New) (c : ρ) (s : σ)
    (hret : (execTx (traced store) fn c (s, [])).2.2 ≠ .panicked) :
    countCall Call.BeginTx (execJournal store fn c s) = 1 ∧
    ((store.BeginTx s).2 ≠ none →
      opened (execJournal store fn c s) = 0 ∧
      countCall Call.Commit (execJournal store fn c s) = 0 ∧
      countCall Call.Rollback (execJournal store fn c s) = 0) ∧
    ((store.BeginTx s).2 = none →
      opened (execJournal store fn c s) = 1 ∧
      countCall Call.Commit (execJournal store fn c s)
        + countCall Call.Rollback (execJournal store fn c s) = 1 ∧
      (countCall Call.Commit (execJournal store fn c s) = 1 ↔
        (fn (traced store).New c ((store.BeginTx s).1, [⟨Call.BeginTx, none⟩])).2.2
          = .returned none)) := by
  obtain ⟨hfail, hok⟩ := execJournal_shape store fn hfn c s
  rcases hb : (store.BeginTx s).2 with _ | e
  · obtain ⟨ws, hw, hlog, hcases⟩ := hok hb
    have kB := countCall_writes Call.BeginTx rfl ws hw
    have kC := countCall_writes Call.Commit rfl ws hw
    have kR := countCall_writes Call.Rollback rfl ws hw
    have kO := opened_writes ws hw
    rcases hcases with ⟨hp, -⟩ | ⟨hn, err, hJ⟩ | ⟨e, he, err, hJ⟩
    · exfalso
      apply hret
      have hb' : (traced store).BeginTx (s, [])
          = (((store.BeginTx s).1, [⟨Call.BeginTx, none⟩]), none) := by
        simp [traced, hb]
      rcases hf : fn (traced store).New c ((store.BeginTx s).1, [⟨Call.BeginTx, none⟩])
        with ⟨st2, c2, o⟩
      rw [hf] at hp
      simp only at hp
      subst hp
      rw [execTx_panic (traced store) fn c c2 _ _ _ hb' hf]
    · refine ⟨?_, fun h => absurd rfl h, fun _ => ?_⟩
      · rw [hJ, countCall_append, countCall_append, kB]
        simp [countCall]
      · refine ⟨?_, ?_, ?_⟩
        · rw [hJ, opened_append, opened_append, kO]
          simp [opened]
        · rw [hJ, countCall_append, countCall_append, countCall_append, countCall_append,
            kC, kR]
          simp [countCall]
        · rw [hJ, countCall_append, countCall_append, kC, hn]
          simp [countCall]
    · refine ⟨?_, fun h => absurd rfl h, fun _ => ?_⟩
      · rw [hJ, countCall_append, countCall_append, kB]
        simp [countCall]
      · refine ⟨?_, ?_, ?_⟩
        · rw [hJ, opened_append, opened_append, kO]
          simp [opened]
        · rw [hJ, countCall_append, countCall_append, countCall_append, countCall_append,
            kC, kR]
          simp [countCall]
        · rw [hJ, countCall_append, countCall_append, kC, he]
          simp [countCall]
  · have hJ := hfail e hb
    refine ⟨?_, fun _ => ?_, fun h => by simp at h⟩
    · rw [hJ]
      simp [countCall]
    · rw [hJ]
      simp [countCall, opened]

/-- The amended C3 on the transactional store, for the closure of a transfer
whose second write fails: one begin, one transaction opened, one rollback and
no commit. -/
theorem C3_one_begin_then_commit_or_rollback_witness :
    countCall Call.BeginTx (execJournal worldStore (transferFn ⟨1, 2, 100⟩)
      TransferTxResult.zero (world12 [none, none, some (.store 5 "boom")])) = 1 ∧
    opened (execJournal worldStore (transferFn ⟨1, 2, 100⟩)
      TransferTxResult.zero (world12 [none, none, some (.store 5 "boom")])) = 1 ∧
    countCall Call.Commit (execJournal worldStore (transferFn ⟨1, 2, 100⟩)
        TransferTxResult.zero (world12 [none, none, some (.store 5 "boom")]))
      + countCall Call.Rollback (execJournal worldStore (transferFn ⟨1, 2, 100⟩)
        TransferTxResult.zero (world12 [none, none, some (.store 5 "boom")])) = 1 ∧
    countCall Call.Commit (execJournal worldStore (transferFn ⟨1, 2, 100⟩)
      TransferTxResult.zero (world12 [none, none, some (.store 5 "boom")])) ≠ 1 :=
  ⟨(C3_one_begin_then_commit_or_rollback worldStore (transferFn ⟨1, 2, 100⟩)
      (transferFn_queriesOnly worldStore ⟨1, 2, 100⟩) TransferTxResult.zero
      (world12 [none, none, some (.store 5 "boom")]) (by decide)).1,
   ((C3_one_begin_then_commit_or_rollback worldStore (transferFn ⟨1, 2, 100⟩)
      (transferFn_queriesOnly worldStore ⟨1, 2, 100⟩) TransferTxResult.zero
      (world12 [none, none, some (.store 5 "boom")]) (by decide)).2.2 (by decide)).1,
   ((C3_one_begin_then_commit_or_rollback worldStore (transferFn ⟨1, 2, 100⟩)
      (transferFn_queriesOnly worldStore ⟨1, 2, 100⟩) TransferTxResult.zero
      (world12 [none, none, some (.store 5 "boom")]) (by decide)).2.2 (by decide)).2.1,
   fun h => absurd
    (((C3_one_begin_then_commit_or_rollback worldStore (transferFn ⟨1, 2, 100⟩)
      (transferFn_queriesOnly worldStore ⟨1, 2, 100⟩) TransferTxResult.zero
      (world12 [none, none, some (.store 5 "boom")]) (by decide)).2.2 (by decide)).2.2.1 h)
    (by decide)⟩

/-- In a list of events whose members before the last all succeeded, a failed
event is the last one. -/
theorem failed_event_is_last (ws : List Event)
    (hdrop : ∀ ev ∈ ws.dropLast, ev.err = none) (ev : Event) (hev : ev ∈ ws)
    (herr : ev.err ≠ none) : ws.getLast? = some ev := by
  rcases List.eq_nil_or_concat ws with rfl | ⟨l, a, rfl⟩
  · simp at hev
  · rw [List.concat_eq_append] at hev hdrop ⊢
    rw [List.dropLast_concat] at hdrop
    rw [List.getLast?_concat]
    rcases List.mem_append.1 hev with h | h
    · exact absurd (hdrop ev h) herr
    · rw [List.mem_singleton] at h
      rw [h]

/-! ## C10 -/

/-- Claim C10: the writes that `TransferTx` issues on the transaction-scoped
handle are a prefix of create-transfer(f, t, a), create-entry(f, -a),
create-entry(t, a), in that order.  Every write but the last issued one
succeeded, so no write follows a failed write and the list ends at the first
failing write; when the transaction began and every issued write succeeded the
list is the full one; when the transaction began at least the first write is
issued; and when begin-transaction fails no write is issued at all. -/
theorem C10_writes_in_source_order {σ : Type} (store : Store σ) (arg : TransferTxParams)
    (s : σ) :
    (writes (journal store arg s)).map Event.call <+: transferWrites arg ∧
    (∀ ev ∈ (writes (journal store arg s)).dropLast, ev.err = none) ∧
    (∀ ev ∈ writes (journal store arg s), ev.err ≠ none →
      (writes (journal store arg s)).getLast? = some ev) ∧
    ((store.BeginTx s).2 = none → (∀ ev ∈ writes (journal store arg s), ev.err = none) →
      (writes (journal store arg s)).map Event.call = transferWrites arg) ∧
    ((store.BeginTx s).2 = none → writes (journal store arg s) ≠ []) ∧
    ((store.BeginTx s).2 ≠ none → writes (journal store arg s) = []) := by
  have hJ : journal store arg s
      = execJournal store (transferFn arg) TransferTxResult.zero s := rfl
  obtain ⟨hfail, hok⟩ := execJournal_shape store (transferFn arg)
    (transferFn_queriesOnly store arg) TransferTxResult.zero s
  rcases hb : (store.BeginTx s).2 with _ | e
  · obtain ⟨ws', -, hlog', hcases⟩ := hok hb
    obtain ⟨ws, hlog, hw, hpre, hdrop, hne, -, hfull⟩ :=
      transferFn_journal store arg TransferTxResult.zero (store.BeginTx s).1
        [⟨Call.BeginTx, none⟩]
    have hws : ws' = ws := List.append_cancel_left (hlog'.symm.trans hlog)
    subst hws
    have key : writes (journal store arg s) = ws' := by
      rw [hJ]
      rcases hcases with ⟨-, h⟩ | ⟨-, err, h⟩ | ⟨e, -, err, h⟩
      · rw [h, writes_append, writes_of_writes ws' hw]
        simp [writes, Call.isWrite]
      · rw [h, writes_append, writes_append, writes_of_writes ws' hw]
        simp [writes, Call.isWrite]
      · rw [h, writes_append, writes_append, writes_of_writes ws' hw]
        simp [writes, Call.isWrite]
    rw [key]
    exact ⟨hpre, hdrop, failed_event_is_last ws' hdrop, fun _ h => hfull h, fun _ => hne,
      fun h => absurd rfl h⟩
  · have h := hfail e hb
    rw [hJ, h]
    refine ⟨?_, ?_, ?_, fun h => by simp at h, fun h => by simp at h, fun _ => ?_⟩
    · simp [writes, Call.isWrite]
    · simp [writes, Call.isWrite]
    · simp [writes, Call.isWrite]
    · simp [writes, Call.isWrite]

/-- The parts of C10 with a hypothesis, on the transactional store: when the
debit entry fails it is the last write issued; when all three writes succeed
the journal holds the three writes in order; when the transaction begins the
first write is issued; when begin-transaction fails no write is issued. -/
theorem C10_writes_in_source_order_witness :
    (writes (journal worldStore ⟨1, 2, 100⟩
        (world12 [none, none, some (.store 5 "boom")]))).getLast?
      = some ⟨Call.CreateEntry ⟨1, -100⟩, some (.store 5 "boom")⟩ ∧
    (writes (journal worldStore ⟨1, 2, 100⟩ (world12 []))).map Event.call
      = [Call.CreateTransfer ⟨1, 2, 100⟩, Call.CreateEntry ⟨1, -100⟩,
          Call.CreateEntry ⟨2, 100⟩] ∧
    writes (journal worldStore ⟨1, 2, 100⟩ (world12 [none, some (.store 4 "insert failed")]))
      ≠ [] ∧
    writes (journal worldStore ⟨1, 2, 100⟩ (world12 [some (.store 3 "no connection")]))
      = [] :=
  ⟨(C10_writes_in_source_order worldStore ⟨1, 2, 100⟩
      (world12 [none, none, some (.store 5 "boom")])).2.2.1
      ⟨Call.CreateEntry ⟨1, -100⟩, some (.store 5 "boom")⟩ (by decide) (by decide),
   (C10_writes_in_source_order worldStore ⟨1, 2, 100⟩ (world12 [])).2.2.2.1
      (by decide) (by decide),
   (C10_writes_in_source_order worldStore ⟨1, 2, 100⟩
      (world12 [none, some (.store 4 "insert failed")])).2.2.2.2.1 (by decide),
   (C10_writes_in_source_order worldStore ⟨1, 2, 100⟩
      (world12 [some (.store 3 "no connection")])).2.2.2.2.2 (by decide)⟩

end SimpleBank
